import Mathlib

/-!
# Hillshade layer rendering (mbgl `RenderHillshadeLayer`)

A shallow embedding of `src/mbgl/renderer/layers/render_hillshade_layer.cpp`.

* Float-valued quantities (exaggeration, illumination direction, bearing, latitudes) live in
  an arbitrary carrier `α` with its own product and difference. For `getLight` the carrier
  is instantiated with the rationals and the rounded `float`/`double` arithmetic of the code
  (`getLightFloat`); the latitudes of `getLatRange` are read over the reals.
* Matrices live in an arbitrary carrier `M`.
* GPU objects (textures, buffers) are plain records; a draw submitted to the graphics device
  is recorded as a value of `Draw`, and `render` returns the list of draws it submitted
  together with the tiles as it left them.
* A failed `assert` ends the call: `render` returns `Except.error`. (With assertions compiled
  out, the statement after each `assert` dereferences the empty optional, which has no
  defined behaviour; the call is taken to end there as well.)
* `checkRenderability` only reports; it is left out.
-/

namespace mbgl

/-! ## Collaborator types (declared outside the translated file) -/

/-- The set of render passes, a flag enum in the code: one Boolean per pass bit. -/
structure RenderPass where
  opaq : Bool
  translucent : Bool
  pass3D : Bool
  deriving DecidableEq, Repr

namespace RenderPass

/-- The value `RenderPass::None`: no pass. -/
protected def None : RenderPass := ⟨false, false, false⟩
/-- The value `RenderPass::Opaque`. -/
protected def Opaque : RenderPass := ⟨true, false, false⟩
/-- The value `RenderPass::Translucent`. -/
protected def Translucent : RenderPass := ⟨false, true, false⟩
/-- The value `RenderPass::Pass3D`. -/
protected def Pass3D : RenderPass := ⟨false, false, true⟩

/-- The operator `|` on pass sets. -/
def union (a b : RenderPass) : RenderPass :=
  ⟨a.opaq || b.opaq, a.translucent || b.translucent, a.pass3D || b.pass3D⟩

/-- The operator `&` on pass sets. -/
def inter (a b : RenderPass) : RenderPass :=
  ⟨a.opaq && b.opaq, a.translucent && b.translucent, a.pass3D && b.pass3D⟩

end RenderPass

/-- The enum `HillshadeIlluminationAnchorType`. -/
inductive HillshadeIlluminationAnchorType where
  | Map
  | Viewport
  deriving DecidableEq, Repr

/-- A colour value, kept abstract as its four channels in thousandths. -/
structure Color where
  r : Nat
  g : Nat
  b : Nat
  a : Nat
  deriving DecidableEq, Repr

/-- A GPU texture, identified by its size. -/
structure Texture where
  size : Nat × Nat
  deriving DecidableEq, Repr

/-- A GPU vertex buffer handle. -/
structure VertexBuffer where
  handle : Nat
  deriving DecidableEq, Repr

/-- A GPU index buffer handle. -/
structure IndexBuffer where
  handle : Nat
  deriving DecidableEq, Repr

/-- A segment of a vertex/index buffer pair. -/
structure Segment where
  vertexOffset : Nat
  indexOffset : Nat
  vertexLength : Nat
  indexLength : Nat
  deriving DecidableEq, Repr

/-- An off-screen render target of a given size (`OffscreenTexture view(context, size)`). -/
structure OffscreenTexture where
  size : Nat × Nat
  deriving DecidableEq, Repr

/-- The texture an off-screen target renders into (`view.getTexture()`). -/
def OffscreenTexture.getTexture (view : OffscreenTexture) : Texture := ⟨view.size⟩

/-- The tile coordinates `(z, x, y)` of `CanonicalTileID`. -/
structure CanonicalTileID where
  z : Nat
  x : Nat
  y : Nat
  deriving DecidableEq, Repr

/-- A tile id with its world-copy index. -/
structure UnwrappedTileID where
  wrap : Int
  canonical : CanonicalTileID
  deriving DecidableEq, Repr

/-- Modelled from the spec: the constructor `UnwrappedTileID(z, x, y)` of the absent
`tile_id.hpp`; the spec reads it as naming the tile at row `y` of zoom `z` ("the tile one row
south (y+1) at the same zoom"), with no special case at the edge of the grid. -/
def UnwrappedTileID.ofZXY (z x y : Nat) : UnwrappedTileID := ⟨0, ⟨z, x, y⟩⟩

/-- Modelled from the spec: `LatLng(id).latitude()` of the absent `geo.hpp`, "the latitude of
the tile's top edge ... via the standard tile-to-latitude projection"; the projection
`lat z y` is a parameter. -/
def LatLng.latitude {α : Type} (lat : Nat → Nat → α) (id : UnwrappedTileID) : α :=
  lat id.canonical.z id.canonical.y

/-- The fields of `DEMData` that `render` reads. -/
structure DEMData where
  dim : Nat
  stride : Nat
  deriving DecidableEq, Repr

/-- The fields of `HillshadeBucket` that `render` reads and writes. -/
structure HillshadeBucket where
  dem : Option Texture
  texture : Option Texture
  demdata : DEMData
  prepared : Bool
  vertexBuffer : Option VertexBuffer
  indexBuffer : Option IndexBuffer
  segments : List Segment
  deriving DecidableEq, Repr

namespace HillshadeBucket

/-- Modelled from the spec: `hasData()` of the absent `hillshade_bucket.hpp`, "hasData() ->
bool (rawElevationTexture present)". -/
def hasData (b : HillshadeBucket) : Bool := b.dem.isSome

/-- Modelled from the spec: `isPrepared()` of the absent `hillshade_bucket.hpp`, the value of
the prepared flag. -/
def isPrepared (b : HillshadeBucket) : Bool := b.prepared

/-- Modelled from the spec: `setPrepared(v)` of the absent `hillshade_bucket.hpp`, which sets
the prepared flag. -/
def setPrepared (b : HillshadeBucket) (v : Bool) : HillshadeBucket := { b with prepared := v }

/-- The accessor `getDEMData()`. -/
def getDEMData (b : HillshadeBucket) : DEMData := b.demdata

end HillshadeBucket

/-- A tile to render: its id and the bucket its tile holds for this layer
(`tile.tile.getBucket<HillshadeBucket>(*baseImpl)`, possibly null). -/
structure RenderTile where
  id : UnwrappedTileID
  bucket : Option HillshadeBucket
  deriving DecidableEq, Repr

/-- The shared geometry of `parameters.staticData`. -/
structure RenderStaticData where
  rasterVertexBuffer : VertexBuffer
  quadTriangleIndexBuffer : IndexBuffer
  rasterSegments : List Segment
  deriving DecidableEq, Repr

/-- The parts of `PaintParameters` that `render` reads: the pass, the viewport bearing
(`state.getBearing()`), the shared geometry and the per-tile matrix. -/
structure PaintParameters (α M : Type) where
  pass : RenderPass
  bearing : α
  staticData : RenderStaticData
  matrixForTile : UnwrappedTileID → Bool → M

/-- The elevation source handed to `render` (`RenderRasterDEMSource`). -/
structure RenderRasterDEMSource where
  maxZoom : Nat
  deriving DecidableEq, Repr

/-- The accessor `getMaxZoom()`. -/
def RenderRasterDEMSource.getMaxZoom (s : RenderRasterDEMSource) : Nat := s.maxZoom

/-- The evaluated paint properties of the layer. -/
structure Evaluated (α : Type) where
  exaggeration : α
  illuminationDirection : α
  illuminationAnchor : HillshadeIlluminationAnchorType
  highlightColor : Color
  shadowColor : Color
  accentColor : Color

/-- The state of `RenderHillshadeLayer` that the translated functions use. -/
structure RenderHillshadeLayer (α : Type) where
  id : String
  evaluated : Evaluated α
  passes : RenderPass

/-- Values the code takes from headers outside the translated file: `util::DEG2RAD`, the
tile-to-latitude projection behind `LatLng`, and the matrix that `matrix::ortho(mat, 0,
EXTENT, -EXTENT, 0, 0, 1)` followed by `matrix::translate(mat, mat, 0, -EXTENT, 0)` builds. -/
structure Env (α M : Type) where
  DEG2RAD : α
  lat : Nat → Nat → α
  mat : M

/-! ## What the graphics device receives -/

/-- The geometry of a draw: vertex buffer, index buffer, segments. -/
structure Geometry where
  vertexBuffer : VertexBuffer
  indexBuffer : IndexBuffer
  segments : List Segment
  deriving DecidableEq, Repr

/-- The draw of the `hillshadePrepare` program: the bound off-screen target, the layout
uniforms, the geometry, the texture bound to `u_image` and the layer id. -/
structure PrepareDraw (M : Type) where
  target : OffscreenTexture
  u_matrix : M
  u_dimension : Nat × Nat
  u_zoom : Nat
  u_maxzoom : Nat
  geometry : Geometry
  u_image : Texture
  layerID : String

/-- The draw of the `hillshade` program: the layout uniforms, the geometry, the texture bound
to `u_image` (with linear filtering) and the layer id. -/
structure ShadeDraw (α M : Type) where
  u_matrix : M
  u_highlight : Color
  u_shadow : Color
  u_accent : Color
  u_light : α × α
  u_latrange : α × α
  geometry : Geometry
  u_image : Texture
  layerID : String

/-- A draw submitted by `render`. Both programs draw triangles with read-only depth for
sublayer 0, stencil and face culling disabled and the colour mode of the pass. -/
inductive Draw (α M : Type) where
  | prepare (d : PrepareDraw M)
  | shade (d : ShadeDraw α M)

/-- The assertions of `render`. -/
inductive RenderError where
  | assertDem (id : UnwrappedTileID)
  | assertTexture (id : UnwrappedTileID)
  deriving DecidableEq, Repr

/-! ## The translated functions -/

section Code

variable {α M : Type}

/-- The function `RenderHillshadeLayer::getLatRange`. -/
def getLatRange (env : Env α M) (id : UnwrappedTileID) : α × α :=
  let latlng0 := LatLng.latitude env.lat id
  let latlng1 := LatLng.latitude env.lat
    (UnwrappedTileID.ofZXY id.canonical.z id.canonical.x (id.canonical.y + 1))
  (latlng0, latlng1)

/-- The function `RenderHillshadeLayer::getLight`. -/
def getLight [Mul α] [Sub α] (env : Env α M) (layer : RenderHillshadeLayer α)
    (parameters : PaintParameters α M) : α × α :=
  let azimuthal := layer.evaluated.illuminationDirection * env.DEG2RAD
  let azimuthal :=
    if layer.evaluated.illuminationAnchor = HillshadeIlluminationAnchorType.Viewport then
      azimuthal - parameters.bearing
    else azimuthal
  (layer.evaluated.exaggeration, azimuthal)

/-- The function `RenderHillshadeLayer::evaluate`; `ev` is what `unevaluated.evaluate
(parameters)` returns. -/
def evaluate [Zero α] [Preorder α] [DecidableRel (fun a b : α => a < b)]
    (layer : RenderHillshadeLayer α) (ev : Evaluated α) : RenderHillshadeLayer α :=
  { layer with
    evaluated := ev
    passes :=
      if 0 < ev.exaggeration then RenderPass.union RenderPass.Translucent RenderPass.Pass3D
      else RenderPass.None }

/-- The lambda `draw` inside `render`. -/
def draw [Mul α] [Sub α] (env : Env α M) (layer : RenderHillshadeLayer α)
    (parameters : PaintParameters α M) (matrix : M) (vertexBuffer : VertexBuffer)
    (indexBuffer : IndexBuffer) (segments : List Segment) (id : UnwrappedTileID)
    (image : Texture) : Draw α M :=
  Draw.shade
    { u_matrix := matrix
      u_highlight := layer.evaluated.highlightColor
      u_shadow := layer.evaluated.shadowColor
      u_accent := layer.evaluated.accentColor
      u_light := getLight env layer parameters
      u_latrange := getLatRange env id
      geometry := ⟨vertexBuffer, indexBuffer, segments⟩
      u_image := image
      layerID := layer.id }

/-- The body of the loop over `renderTiles` in `render`, for one tile: the tile as the body
leaves it and the draws the body submits, or the assertion that failed. -/
def renderTile [Mul α] [Sub α] (env : Env α M) (layer : RenderHillshadeLayer α)
    (parameters : PaintParameters α M) (maxzoom : Nat) (tile : RenderTile) :
    Except RenderError (RenderTile × List (Draw α M)) :=
  match tile.bucket with
  | none => .ok (tile, [])
  | some bucket =>
    if !bucket.hasData then .ok (tile, [])
    else if !bucket.isPrepared && parameters.pass == RenderPass.Pass3D then
      match bucket.dem with
      | none => .error (.assertDem tile.id)
      | some dem =>
        let stride := bucket.getDEMData.stride % 65536
        let tilesize := bucket.getDEMData.dim % 65536
        let view : OffscreenTexture := ⟨(tilesize, tilesize)⟩
        let d : Draw α M := Draw.prepare
          { target := view
            u_matrix := env.mat
            u_dimension := (stride, stride)
            u_zoom := tile.id.canonical.z
            u_maxzoom := maxzoom
            geometry := ⟨parameters.staticData.rasterVertexBuffer,
                         parameters.staticData.quadTriangleIndexBuffer,
                         parameters.staticData.rasterSegments⟩
            u_image := dem
            layerID := layer.id }
        let bucket := { bucket with texture := some view.getTexture }
        let bucket := bucket.setPrepared true
        .ok ({ tile with bucket := some bucket }, [d])
    else if parameters.pass == RenderPass.Translucent then
      match bucket.texture with
      | none => .error (.assertTexture tile.id)
      | some texture =>
        match bucket.vertexBuffer, bucket.indexBuffer, bucket.segments.isEmpty with
        | some vertexBuffer, some indexBuffer, false =>
          .ok (tile, [draw env layer parameters (parameters.matrixForTile tile.id true)
            vertexBuffer indexBuffer bucket.segments tile.id texture])
        | _, _, _ =>
          .ok (tile, [draw env layer parameters (parameters.matrixForTile tile.id true)
            parameters.staticData.rasterVertexBuffer
            parameters.staticData.quadTriangleIndexBuffer
            parameters.staticData.rasterSegments tile.id texture])
    else .ok (tile, [])

/-- The loop `for (const RenderTile& tile : renderTiles)` of `render`. -/
def renderLoop [Mul α] [Sub α] (env : Env α M) (layer : RenderHillshadeLayer α)
    (parameters : PaintParameters α M) (maxzoom : Nat) :
    List RenderTile → Except RenderError (List RenderTile × List (Draw α M))
  | [] => .ok ([], [])
  | tile :: rest =>
    match renderTile env layer parameters maxzoom tile with
    | .error e => .error e
    | .ok (tile', d) =>
      match renderLoop env layer parameters maxzoom rest with
      | .error e => .error e
      | .ok (rest', ds) => .ok (tile' :: rest', d ++ ds)

/-- The constant `TERRAIN_RGB_MAXZOOM` of `render`. -/
def TERRAIN_RGB_MAXZOOM : Nat := 15

/-- The local `maxzoom` of `render`, a `uint8_t`. -/
def maxzoomOf (src : Option RenderRasterDEMSource) : Nat :=
  (match src with
   | some demsrc => demsrc.getMaxZoom
   | none => TERRAIN_RGB_MAXZOOM) % 256

/-- The function `RenderHillshadeLayer::render`, over the layer's `renderTiles`: the tiles as
the call leaves them and the draws it submits, or the assertion that failed. -/
def render [Mul α] [Sub α] (env : Env α M) (layer : RenderHillshadeLayer α)
    (parameters : PaintParameters α M) (src : Option RenderRasterDEMSource)
    (renderTiles : List RenderTile) :
    Except RenderError (List RenderTile × List (Draw α M)) :=
  if parameters.pass ≠ RenderPass.Translucent ∧ parameters.pass ≠ RenderPass.Pass3D then
    .ok (renderTiles, [])
  else
    renderLoop env layer parameters (maxzoomOf src) renderTiles

/-- Modelled from the spec: one call of the render-pass scheduler (the absent renderer) into
the layer, "external scheduler calls Layer Orchestrator once per active render pass": the
layer state, the paint parameters and the source of that call. -/
structure Call (α M : Type) where
  layer : RenderHillshadeLayer α
  parameters : PaintParameters α M
  src : Option RenderRasterDEMSource

/-- Modelled from the spec: a sequence of `render` calls by the scheduler over one tile set,
each call on the tiles as the previous call left them; the draws are collected in order and
a failed assertion ends the sequence. -/
def renderCalls [Mul α] [Sub α] (env : Env α M) :
    List (Call α M) → List RenderTile → Except RenderError (List RenderTile × List (Draw α M))
  | [], tiles => .ok (tiles, [])
  | c :: cs, tiles =>
    match render env c.layer c.parameters c.src tiles with
    | .error e => .error e
    | .ok (tiles', d) =>
      match renderCalls env cs tiles' with
      | .error e => .error e
      | .ok (tiles'', ds) => .ok (tiles'', d ++ ds)

/-- Modelled from the spec: a frame of the scheduler, "Pass3D for a given frame's tile set
runs before Translucent in the same frame": the given call with its pass set to `Pass3D`,
then the given call with its pass set to `Translucent`. -/
def frameCalls (f : Call α M × Call α M) : List (Call α M) :=
  [ { f.1 with parameters := { f.1.parameters with pass := RenderPass.Pass3D } },
    { f.2 with parameters := { f.2.parameters with pass := RenderPass.Translucent } } ]

/-- Modelled from the spec: `hasRenderPass(pass)` of the absent `render_layer.hpp`, whether
`pass` is in the layer's active pass set. -/
def hasRenderPass (layer : RenderHillshadeLayer α) (pass : RenderPass) : Bool :=
  RenderPass.inter layer.passes pass != RenderPass.None

/-- Modelled from the spec: the scheduler's call into the layer for one pass, "external
scheduler calls Layer Orchestrator once per active render pass": `render` is called only
when the pass is in the layer's active pass set. -/
def renderIfActive [Mul α] [Sub α] (env : Env α M) (layer : RenderHillshadeLayer α)
    (parameters : PaintParameters α M) (src : Option RenderRasterDEMSource)
    (renderTiles : List RenderTile) :
    Except RenderError (List RenderTile × List (Draw α M)) :=
  if hasRenderPass layer parameters.pass then render env layer parameters src renderTiles
  else .ok (renderTiles, [])

/-- The outcome of the loop over `pre ++ tile :: post`, given the outcome `a` of the loop over
`pre`, the result `mid` of the body on `tile`, and the outcome `b` of the loop over `post`:
the first failed assertion, or else the tiles and the draws in order. -/
def splice (a : Except RenderError (List RenderTile × List (Draw α M)))
    (mid : RenderTile × List (Draw α M))
    (b : Except RenderError (List RenderTile × List (Draw α M))) :
    Except RenderError (List RenderTile × List (Draw α M)) :=
  match a with
  | .error e => .error e
  | .ok (pre', d1) =>
    match b with
    | .error e => .error e
    | .ok (post', d2) => .ok (pre' ++ mid.1 :: post', d1 ++ mid.2 ++ d2)

/-- Modelled from the spec: the calls of a sequence of frames, in order. -/
def framesCalls : List (Call α M × Call α M) → List (Call α M)
  | [] => []
  | f :: fs => frameCalls f ++ framesCalls fs

/-- Between two states of a tile: the id is the same, and a bucket that was prepared is still
there, unchanged (so still prepared, with the same shaded texture). -/
def StaysPrepared (t t' : RenderTile) : Prop :=
  t'.id = t.id ∧ ∀ b, t.bucket = some b → b.isPrepared = true → t'.bucket = some b

/-- A tile whose bucket, if prepared, holds a shaded texture. -/
def TextureIfPrepared (t : RenderTile) : Prop :=
  ∀ b, t.bucket = some b → b.isPrepared = true → ∃ texture, b.texture = some texture

/-- A tile whose bucket, if it has data, is prepared and holds a shaded texture. -/
def ReadyToShade (t : RenderTile) : Prop :=
  ∀ b, t.bucket = some b → b.hasData = true →
    b.isPrepared = true ∧ ∃ texture, b.texture = some texture

/-! ### Float arithmetic of `getLight`

`getLight` multiplies a `float` by the `double` constant `DEG2RAD` and subtracts the `double`
bearing from a `float`; C++ computes both in `double` and rounds the result to `float` when it
is stored in `azimuthal`. Finite floating-point values are rationals, so the model rounds
rationals. -/

/-- Rounding of a rational to the nearest integer, ties to the even integer. -/
def roundHalfEven (y : ℚ) : ℤ :=
  if y - ⌊y⌋ < 1 / 2 then ⌊y⌋
  else if 1 / 2 < y - ⌊y⌋ then ⌊y⌋ + 1
  else if ⌊y⌋ % 2 = 0 then ⌊y⌋
  else ⌊y⌋ + 1

/-- Rounding to the binary floating-point format with `p` significant bits and least normal
exponent `emin` (IEEE 754, round to nearest, ties to even): the value is rounded to a
multiple of the spacing `2 ^ (e - (p - 1))` of its binade, where `e` is the exponent of `x`,
not below `emin`. Overflow to infinity is not modelled. -/
def roundBinary (p : Nat) (emin : Int) (x : ℚ) : ℚ :=
  let e := max (Int.log 2 |x|) emin
  let ulp : ℚ := 2 ^ (e - ((p : Int) - 1))
  roundHalfEven (x / ulp) * ulp

/-- Rounding to `double` (binary64). -/
def toDouble (x : ℚ) : ℚ := roundBinary 53 (-1022) x

/-- Rounding to `float` (binary32). -/
def toFloat (x : ℚ) : ℚ := roundBinary 24 (-126) x

/-- The expression `a * b` for a `float` and a `double`, stored in a `float`. -/
def floatTimesDouble (a b : ℚ) : ℚ := toFloat (toDouble (a * b))

/-- The expression `a - b` for a `float` and a `double`, stored in a `float`. -/
def floatMinusDouble (a b : ℚ) : ℚ := toFloat (toDouble (a - b))

/-- The function `getLight` with the arithmetic of its operand types: the product and the
difference are those of `floatTimesDouble` and `floatMinusDouble`. -/
def getLightFloat (env : Env ℚ M) (layer : RenderHillshadeLayer ℚ)
    (parameters : PaintParameters ℚ M) : ℚ × ℚ :=
  @getLight ℚ M ⟨floatTimesDouble⟩ ⟨floatMinusDouble⟩ env layer parameters

/-- The `double` nearest to `pi / 180`, the value of `M_PI / 180.0`. -/
def exDEG2RAD : ℚ := 5030569068109113 / 288230376151711744

/-- The `double` nearest to `pi / 2`. -/
def exHalfPi : ℚ := 884279719003555 / 562949953421312

/-- An environment with `DEG2RAD` the `double` nearest to `pi / 180`. -/
def exEnvFloat : Env ℚ Unit := ⟨exDEG2RAD, fun _ _ => 0, ()⟩

/-- A layer with direction 315, exaggeration 0.5 and the given anchor. -/
def exLayerFloat (anchor : HillshadeIlluminationAnchorType) : RenderHillshadeLayer ℚ :=
  { id := "hillshade",
    evaluated :=
      { exaggeration := 1 / 2, illuminationDirection := 315, illuminationAnchor := anchor,
        highlightColor := ⟨1000, 1000, 1000, 1000⟩, shadowColor := ⟨0, 0, 0, 1000⟩,
        accentColor := ⟨0, 0, 0, 1000⟩ },
    passes := RenderPass.None }

/-- Paint parameters with the given bearing. -/
def exParamsFloat (bearing : ℚ) : PaintParameters ℚ Unit :=
  { pass := RenderPass.Translucent, bearing := bearing,
    staticData := ⟨⟨1⟩, ⟨2⟩, [⟨0, 0, 4, 6⟩]⟩, matrixForTile := fun _ _ => () }

/-- Whether the tile holds a bucket that has data: the tiles that get past the two `continue`
guards of the loop. -/
def RenderTile.hasData (t : RenderTile) : Bool :=
  match t.bucket with
  | some b => b.hasData
  | none => false

/-- The draw `d` is a shade draw for the tile `t`: the bucket of `t` has data, is prepared and
holds a shaded texture, and `d` is a draw of the `hillshade` program sampling that texture. -/
def ShadesPrepared (t : RenderTile) (d : Draw α M) : Prop :=
  ∃ b texture sd, t.bucket = some b ∧ b.hasData = true ∧ b.isPrepared = true ∧
    b.texture = some texture ∧ d = Draw.shade sd ∧ sd.u_image = texture

/-- Modelled from the spec: the "standard tile-to-latitude projection" behind `LatLng` (the
absent `geo.hpp`), in degrees: `lat(z, y) = atan(sinh(pi * (1 - 2 * y / 2^z))) * 180 / pi`. -/
def StandardProjection (lat : Nat → Nat → ℝ) : Prop :=
  ∀ z y : Nat,
    lat z y = Real.arctan (Real.sinh (Real.pi * (1 - 2 * (y : ℝ) / 2 ^ z))) * 180 / Real.pi

end Code

/-! ## Concrete data for evaluating the definitions -/

section Examples

/-- A tile id used in the examples. -/
def exId : UnwrappedTileID := ⟨0, ⟨4, 2, 3⟩⟩

/-- An uploaded bucket that has not been prepared, with no partial geometry. -/
def exFresh : HillshadeBucket :=
  { dem := some ⟨(258, 258)⟩, texture := none, demdata := ⟨256, 258⟩, prepared := false,
    vertexBuffer := none, indexBuffer := none, segments := [] }

/-- The bucket `exFresh` after its prepare draw. -/
def exPrepared : HillshadeBucket :=
  { exFresh with texture := some ⟨(256, 256)⟩, prepared := true }

/-- A prepared bucket with partial geometry. -/
def exPartial : HillshadeBucket :=
  { exPrepared with vertexBuffer := some ⟨7⟩, indexBuffer := some ⟨8⟩,
                    segments := [⟨0, 0, 4, 6⟩] }

/-- A bucket whose source supplied no data. -/
def exNoData : HillshadeBucket :=
  { dem := none, texture := none, demdata := ⟨0, 0⟩, prepared := false,
    vertexBuffer := none, indexBuffer := none, segments := [] }

/-- Shared geometry used in the examples. -/
def exStatic : RenderStaticData := ⟨⟨1⟩, ⟨2⟩, [⟨0, 0, 4, 6⟩]⟩

/-- Paint parameters over the integers with the given pass. -/
def exParams (pass : RenderPass) : PaintParameters Int Nat :=
  { pass := pass, bearing := 0, staticData := exStatic, matrixForTile := fun _ _ => 1 }

/-- An integer-valued environment. -/
def exEnv : Env Int Nat := ⟨1, fun _ _ => 0, 0⟩

/-- Evaluated properties with the given exaggeration. -/
def exEvaluated (e : Int) : Evaluated Int :=
  { exaggeration := e, illuminationDirection := 315,
    illuminationAnchor := HillshadeIlluminationAnchorType.Map,
    highlightColor := ⟨1000, 1000, 1000, 1000⟩, shadowColor := ⟨0, 0, 0, 1000⟩,
    accentColor := ⟨0, 0, 0, 1000⟩ }

/-- A layer with the given exaggeration and active passes. -/
def exLayer (e : Int) (passes : RenderPass) : RenderHillshadeLayer Int :=
  { id := "hillshade", evaluated := exEvaluated e, passes := passes }

end Examples

/-! ## Lemmas about the loop and its body -/

section Lemmas

variable {α M : Type} [Mul α] [Sub α]

theorem render_pass3D (env : Env α M) (layer : RenderHillshadeLayer α)
    (parameters : PaintParameters α M) (src : Option RenderRasterDEMSource)
    (tiles : List RenderTile) (hp : parameters.pass = RenderPass.Pass3D) :
    render env layer parameters src tiles
      = renderLoop env layer parameters (maxzoomOf src) tiles := by
  simp [render, hp]

theorem render_translucent (env : Env α M) (layer : RenderHillshadeLayer α)
    (parameters : PaintParameters α M) (src : Option RenderRasterDEMSource)
    (tiles : List RenderTile) (hp : parameters.pass = RenderPass.Translucent) :
    render env layer parameters src tiles
      = renderLoop env layer parameters (maxzoomOf src) tiles := by
  simp [render, hp]

theorem render_otherPass (env : Env α M) (layer : RenderHillshadeLayer α)
    (parameters : PaintParameters α M) (src : Option RenderRasterDEMSource)
    (tiles : List RenderTile) (h1 : parameters.pass ≠ RenderPass.Translucent)
    (h2 : parameters.pass ≠ RenderPass.Pass3D) :
    render env layer parameters src tiles = .ok (tiles, []) := by
  simp [render, h1, h2]

theorem renderLoop_splice (env : Env α M) (layer : RenderHillshadeLayer α)
    (parameters : PaintParameters α M) (maxzoom : Nat) (pre post : List RenderTile)
    (tile : RenderTile) (mid : RenderTile × List (Draw α M))
    (h : renderTile env layer parameters maxzoom tile = .ok mid) :
    renderLoop env layer parameters maxzoom (pre ++ tile :: post)
      = splice (renderLoop env layer parameters maxzoom pre) mid
          (renderLoop env layer parameters maxzoom post) := by
  induction pre with
  | nil =>
    obtain ⟨t', d⟩ := mid
    simp only [List.nil_append, renderLoop, h, splice]
  | cons a pre ih =>
    rw [List.cons_append, renderLoop, ih]
    conv_rhs => rw [renderLoop]
    cases renderTile env layer parameters maxzoom a with
    | error e => rfl
    | ok r =>
      obtain ⟨a', da⟩ := r
      cases renderLoop env layer parameters maxzoom pre with
      | error e => rfl
      | ok r1 =>
        obtain ⟨pre', d1⟩ := r1
        cases renderLoop env layer parameters maxzoom post with
        | error e => rfl
        | ok r2 => obtain ⟨post', d2⟩ := r2; simp [splice]

theorem renderLoop_error (env : Env α M) (layer : RenderHillshadeLayer α)
    (parameters : PaintParameters α M) (maxzoom : Nat) (pre post : List RenderTile)
    (tile : RenderTile) (e : RenderError)
    (h : renderTile env layer parameters maxzoom tile = .error e) :
    ∃ e', renderLoop env layer parameters maxzoom (pre ++ tile :: post) = .error e' := by
  induction pre with
  | nil => exact ⟨e, by simp [renderLoop, h]⟩
  | cons a pre ih =>
    obtain ⟨e', he'⟩ := ih
    rw [List.cons_append, renderLoop, he']
    cases renderTile env layer parameters maxzoom a with
    | error e1 => exact ⟨e1, rfl⟩
    | ok r => exact ⟨e', rfl⟩

theorem renderTile_absent (env : Env α M) (layer : RenderHillshadeLayer α)
    (parameters : PaintParameters α M) (maxzoom : Nat) (tile : RenderTile)
    (h : tile.bucket = none) :
    renderTile env layer parameters maxzoom tile = .ok (tile, []) := by
  simp [renderTile, h]

theorem renderTile_noData (env : Env α M) (layer : RenderHillshadeLayer α)
    (parameters : PaintParameters α M) (maxzoom : Nat) (tile : RenderTile)
    (b : HillshadeBucket) (h : tile.bucket = some b) (hd : b.hasData = false) :
    renderTile env layer parameters maxzoom tile = .ok (tile, []) := by
  simp [renderTile, h, hd]

theorem renderTile_prepared_pass3D (env : Env α M) (layer : RenderHillshadeLayer α)
    (parameters : PaintParameters α M) (maxzoom : Nat) (tile : RenderTile)
    (b : HillshadeBucket) (h : tile.bucket = some b) (hprep : b.isPrepared = true)
    (hp : parameters.pass = RenderPass.Pass3D) :
    renderTile env layer parameters maxzoom tile = .ok (tile, []) := by
  have hne : (RenderPass.Pass3D == RenderPass.Translucent) = false := by decide
  cases hd : b.hasData <;> simp [renderTile, h, hd, hprep, hp, hne]

theorem renderTile_prepare (env : Env α M) (layer : RenderHillshadeLayer α)
    (parameters : PaintParameters α M) (maxzoom : Nat) (tile : RenderTile)
    (b : HillshadeBucket) (dem : Texture) (h : tile.bucket = some b)
    (hdem : b.dem = some dem) (hprep : b.isPrepared = false)
    (hp : parameters.pass = RenderPass.Pass3D) :
    renderTile env layer parameters maxzoom tile
      = .ok ({ tile with
                bucket := some ({ b with
                  texture := some ⟨(b.demdata.dim % 65536, b.demdata.dim % 65536)⟩,
                  prepared := true }) },
             [Draw.prepare
                { target := ⟨(b.demdata.dim % 65536, b.demdata.dim % 65536)⟩
                  u_matrix := env.mat
                  u_dimension := (b.demdata.stride % 65536, b.demdata.stride % 65536)
                  u_zoom := tile.id.canonical.z
                  u_maxzoom := maxzoom
                  geometry := ⟨parameters.staticData.rasterVertexBuffer,
                               parameters.staticData.quadTriangleIndexBuffer,
                               parameters.staticData.rasterSegments⟩
                  u_image := dem
                  layerID := layer.id }]) := by
  have hd : b.hasData = true := by simp [HillshadeBucket.hasData, hdem]
  simp [renderTile, h, hd, hprep, hp, hdem, HillshadeBucket.setPrepared,
    HillshadeBucket.getDEMData, OffscreenTexture.getTexture]

theorem renderTile_noTexture (env : Env α M) (layer : RenderHillshadeLayer α)
    (parameters : PaintParameters α M) (maxzoom : Nat) (tile : RenderTile)
    (b : HillshadeBucket) (h : tile.bucket = some b) (hd : b.hasData = true)
    (htex : b.texture = none) (hp : parameters.pass = RenderPass.Translucent) :
    renderTile env layer parameters maxzoom tile = .error (.assertTexture tile.id) := by
  have hne : (RenderPass.Translucent == RenderPass.Pass3D) = false := by decide
  simp [renderTile, h, hd, hp, hne, htex]

theorem renderTile_shade_own (env : Env α M) (layer : RenderHillshadeLayer α)
    (parameters : PaintParameters α M) (maxzoom : Nat) (tile : RenderTile)
    (b : HillshadeBucket) (texture : Texture) (v : VertexBuffer) (i : IndexBuffer)
    (h : tile.bucket = some b) (hd : b.hasData = true) (htex : b.texture = some texture)
    (hp : parameters.pass = RenderPass.Translucent)
    (hv : b.vertexBuffer = some v) (hi : b.indexBuffer = some i) (hs : b.segments ≠ []) :
    renderTile env layer parameters maxzoom tile
      = .ok (tile, [draw env layer parameters (parameters.matrixForTile tile.id true)
                      v i b.segments tile.id texture]) := by
  have hne : (RenderPass.Translucent == RenderPass.Pass3D) = false := by decide
  have hs' : b.segments.isEmpty = false := by
    cases hseg : b.segments with
    | nil => exact absurd hseg hs
    | cons x xs => rfl
  simp [renderTile, h, hd, hp, hne, htex, hv, hi, hs']

theorem renderTile_shade_full (env : Env α M) (layer : RenderHillshadeLayer α)
    (parameters : PaintParameters α M) (maxzoom : Nat) (tile : RenderTile)
    (b : HillshadeBucket) (texture : Texture)
    (h : tile.bucket = some b) (hd : b.hasData = true) (htex : b.texture = some texture)
    (hp : parameters.pass = RenderPass.Translucent)
    (hg : b.vertexBuffer = none ∨ b.indexBuffer = none ∨ b.segments = []) :
    renderTile env layer parameters maxzoom tile
      = .ok (tile, [draw env layer parameters (parameters.matrixForTile tile.id true)
                      parameters.staticData.rasterVertexBuffer
                      parameters.staticData.quadTriangleIndexBuffer
                      parameters.staticData.rasterSegments tile.id texture]) := by
  have hne : (RenderPass.Translucent == RenderPass.Pass3D) = false := by decide
  simp only [renderTile, h, hd, hp, hne, htex, Bool.not_true, Bool.and_false,
    Bool.false_eq_true, if_false, beq_self_eq_true, if_true]
  rcases hg with hg | hg | hg
  · simp [hg]
  · cases hv : b.vertexBuffer <;> simp [hg]
  · cases hv : b.vertexBuffer <;> cases hi : b.indexBuffer <;> simp [hg]

theorem render_splice (env : Env α M) (layer : RenderHillshadeLayer α)
    (parameters : PaintParameters α M) (src : Option RenderRasterDEMSource)
    (pre post : List RenderTile) (tile : RenderTile) (mid : RenderTile × List (Draw α M))
    (hp : parameters.pass = RenderPass.Pass3D ∨ parameters.pass = RenderPass.Translucent)
    (h : renderTile env layer parameters (maxzoomOf src) tile = .ok mid) :
    render env layer parameters src (pre ++ tile :: post)
      = splice (render env layer parameters src pre) mid
          (render env layer parameters src post) := by
  rcases hp with hp | hp
  · simp only [render_pass3D env layer parameters src _ hp]
    exact renderLoop_splice env layer parameters _ pre post tile mid h
  · simp only [render_translucent env layer parameters src _ hp]
    exact renderLoop_splice env layer parameters _ pre post tile mid h

theorem render_splice_skip (env : Env α M) (layer : RenderHillshadeLayer α)
    (parameters : PaintParameters α M) (src : Option RenderRasterDEMSource)
    (pre post : List RenderTile) (tile : RenderTile)
    (h : renderTile env layer parameters (maxzoomOf src) tile = .ok (tile, [])) :
    render env layer parameters src (pre ++ tile :: post)
      = splice (render env layer parameters src pre) (tile, [])
          (render env layer parameters src post) := by
  by_cases hp : parameters.pass = RenderPass.Pass3D ∨ parameters.pass = RenderPass.Translucent
  · exact render_splice env layer parameters src pre post tile _ hp h
  · have h1 : parameters.pass ≠ RenderPass.Translucent := fun hc => hp (Or.inr hc)
    have h2 : parameters.pass ≠ RenderPass.Pass3D := fun hc => hp (Or.inl hc)
    simp [render_otherPass env layer parameters src _ h1 h2, splice]

theorem renderTile_pass3D_total (env : Env α M) (layer : RenderHillshadeLayer α)
    (parameters : PaintParameters α M) (maxzoom : Nat) (tile : RenderTile)
    (hp : parameters.pass = RenderPass.Pass3D) :
    ∃ t' d, renderTile env layer parameters maxzoom tile = .ok (t', d) ∧
      StaysPrepared tile t' ∧ (TextureIfPrepared tile → TextureIfPrepared t' ∧ ReadyToShade t') := by
  cases hb : tile.bucket with
  | none =>
    refine ⟨tile, [], renderTile_absent env layer parameters _ tile hb, ⟨rfl, ?_⟩, ?_⟩
    · intro b hb'; simp [hb] at hb'
    · intro hinv
      exact ⟨hinv, fun b hb' => by simp [hb] at hb'⟩
  | some b =>
    cases hd : b.hasData with
    | false =>
      refine ⟨tile, [], renderTile_noData env layer parameters _ tile b hb hd,
        ⟨rfl, fun b' hb' _ => hb'⟩, ?_⟩
      intro hinv
      refine ⟨hinv, fun b' hb' hd' => ?_⟩
      rw [hb] at hb'
      cases hb'
      rw [hd] at hd'
      cases hd'
    | true =>
      cases hprep : b.isPrepared with
      | true =>
        refine ⟨tile, [], renderTile_prepared_pass3D env layer parameters _ tile b hb hprep hp,
          ⟨rfl, fun b' hb' _ => hb'⟩, ?_⟩
        intro hinv
        refine ⟨hinv, fun b' hb' _ => ?_⟩
        rw [hb] at hb'
        cases hb'
        exact ⟨hprep, hinv b hb hprep⟩
      | false =>
        obtain ⟨dem, hdem⟩ : ∃ dem, b.dem = some dem := by
          cases hx : b.dem with
          | none => simp [HillshadeBucket.hasData, hx] at hd
          | some dem => exact ⟨dem, rfl⟩
        refine ⟨_, _, renderTile_prepare env layer parameters _ tile b dem hb hdem hprep hp,
          ⟨rfl, ?_⟩, ?_⟩
        · intro b' hb' hprep'
          rw [hb] at hb'
          cases hb'
          rw [hprep] at hprep'
          cases hprep'
        · intro _
          constructor
          · intro b' hb' _
            cases hb'
            exact ⟨_, rfl⟩
          · intro b' hb' _
            cases hb'
            exact ⟨rfl, _, rfl⟩

theorem renderLoop_pass3D_total (env : Env α M) (layer : RenderHillshadeLayer α)
    (parameters : PaintParameters α M) (maxzoom : Nat) (tiles : List RenderTile)
    (hp : parameters.pass = RenderPass.Pass3D) :
    ∃ ts' ds, renderLoop env layer parameters maxzoom tiles = .ok (ts', ds) ∧
      List.Forall₂ StaysPrepared tiles ts' ∧
      ((∀ t ∈ tiles, TextureIfPrepared t) →
        ∀ t ∈ ts', TextureIfPrepared t ∧ ReadyToShade t) := by
  induction tiles with
  | nil => exact ⟨[], [], rfl, List.Forall₂.nil, fun _ t ht => by cases ht⟩
  | cons a rest ih =>
    obtain ⟨a', d, ha, hs, hi⟩ := renderTile_pass3D_total env layer parameters maxzoom a hp
    obtain ⟨rest', ds, hrest, hss, his⟩ := ih
    refine ⟨a' :: rest', d ++ ds, ?_, List.Forall₂.cons hs hss, ?_⟩
    · rw [renderLoop, ha, hrest]
    · intro hall t ht
      rcases List.mem_cons.mp ht with rfl | ht
      · exact hi (hall a (List.mem_cons_self _ _))
      · exact his (fun u hu => hall u (List.mem_cons_of_mem _ hu)) t ht

theorem renderTile_translucent_ready (env : Env α M) (layer : RenderHillshadeLayer α)
    (parameters : PaintParameters α M) (maxzoom : Nat) (tile : RenderTile)
    (hp : parameters.pass = RenderPass.Translucent) (hr : ReadyToShade tile) :
    ∃ d, renderTile env layer parameters maxzoom tile = .ok (tile, d) := by
  cases hb : tile.bucket with
  | none => exact ⟨[], renderTile_absent env layer parameters _ tile hb⟩
  | some b =>
    cases hd : b.hasData with
    | false => exact ⟨[], renderTile_noData env layer parameters _ tile b hb hd⟩
    | true =>
      obtain ⟨_, texture, htex⟩ := hr b hb hd
      by_cases hg : b.vertexBuffer = none ∨ b.indexBuffer = none ∨ b.segments = []
      · exact ⟨_, renderTile_shade_full env layer parameters _ tile b texture hb hd htex hp hg⟩
      · obtain ⟨v, hv⟩ : ∃ v, b.vertexBuffer = some v := by
          cases hx : b.vertexBuffer with
          | none => exact absurd (Or.inl hx) hg
          | some v => exact ⟨v, rfl⟩
        obtain ⟨i, hi⟩ : ∃ i, b.indexBuffer = some i := by
          cases hx : b.indexBuffer with
          | none => exact absurd (Or.inr (Or.inl hx)) hg
          | some i => exact ⟨i, rfl⟩
        have hs : b.segments ≠ [] := fun hx => hg (Or.inr (Or.inr hx))
        exact ⟨_, renderTile_shade_own env layer parameters _ tile b texture v i hb hd htex
          hp hv hi hs⟩

theorem renderLoop_translucent_ready (env : Env α M) (layer : RenderHillshadeLayer α)
    (parameters : PaintParameters α M) (maxzoom : Nat) (tiles : List RenderTile)
    (hp : parameters.pass = RenderPass.Translucent) (hr : ∀ t ∈ tiles, ReadyToShade t) :
    ∃ ds, renderLoop env layer parameters maxzoom tiles = .ok (tiles, ds) := by
  induction tiles with
  | nil => exact ⟨[], rfl⟩
  | cons a rest ih =>
    obtain ⟨d, ha⟩ := renderTile_translucent_ready env layer parameters maxzoom a hp
      (hr a (List.mem_cons_self _ _))
    obtain ⟨ds, hrest⟩ := ih (fun u hu => hr u (List.mem_cons_of_mem _ hu))
    exact ⟨d ++ ds, by rw [renderLoop, ha, hrest]⟩

theorem renderTile_translucent_same (env : Env α M) (layer : RenderHillshadeLayer α)
    (parameters : PaintParameters α M) (maxzoom : Nat) (tile t' : RenderTile)
    (d : List (Draw α M)) (hp : parameters.pass = RenderPass.Translucent)
    (h : renderTile env layer parameters maxzoom tile = .ok (t', d)) : t' = tile := by
  cases hb : tile.bucket with
  | none =>
    rw [renderTile_absent env layer parameters _ tile hb] at h
    cases h; rfl
  | some b =>
    cases hd : b.hasData with
    | false =>
      rw [renderTile_noData env layer parameters _ tile b hb hd] at h
      cases h; rfl
    | true =>
      cases htex : b.texture with
      | none =>
        rw [renderTile_noTexture env layer parameters _ tile b hb hd htex hp] at h
        cases h
      | some texture =>
        have hr : ReadyToShade { tile with bucket := some { b with prepared := true } } := by
          intro b' hb' _
          cases hb'
          exact ⟨rfl, texture, htex⟩
        by_cases hg : b.vertexBuffer = none ∨ b.indexBuffer = none ∨ b.segments = []
        · rw [renderTile_shade_full env layer parameters _ tile b texture hb hd htex hp hg] at h
          cases h; rfl
        · obtain ⟨v, hv⟩ : ∃ v, b.vertexBuffer = some v := by
            cases hx : b.vertexBuffer with
            | none => exact absurd (Or.inl hx) hg
            | some v => exact ⟨v, rfl⟩
          obtain ⟨i, hi⟩ : ∃ i, b.indexBuffer = some i := by
            cases hx : b.indexBuffer with
            | none => exact absurd (Or.inr (Or.inl hx)) hg
            | some i => exact ⟨i, rfl⟩
          have hs : b.segments ≠ [] := fun hx => hg (Or.inr (Or.inr hx))
          rw [renderTile_shade_own env layer parameters _ tile b texture v i hb hd htex
            hp hv hi hs] at h
          cases h; rfl

theorem renderLoop_translucent_same (env : Env α M) (layer : RenderHillshadeLayer α)
    (parameters : PaintParameters α M) (maxzoom : Nat) (tiles ts' : List RenderTile)
    (ds : List (Draw α M)) (hp : parameters.pass = RenderPass.Translucent)
    (h : renderLoop env layer parameters maxzoom tiles = .ok (ts', ds)) : ts' = tiles := by
  induction tiles generalizing ts' ds with
  | nil =>
    rw [renderLoop] at h
    cases h; rfl
  | cons a rest ih =>
    rw [renderLoop] at h
    cases ha : renderTile env layer parameters maxzoom a with
    | error e => rw [ha] at h; cases h
    | ok r =>
      obtain ⟨a', d⟩ := r
      rw [ha] at h
      cases hrest : renderLoop env layer parameters maxzoom rest with
      | error e => rw [hrest] at h; cases h
      | ok r2 =>
        obtain ⟨rest', ds2⟩ := r2
        rw [hrest] at h
        cases h
        rw [renderTile_translucent_same env layer parameters maxzoom a a' d hp ha,
          ih rest' ds2 hrest]

theorem renderCalls_append (env : Env α M) (cs1 cs2 : List (Call α M))
    (tiles s1 s2 : List RenderTile) (d1 d2 : List (Draw α M))
    (h1 : renderCalls env cs1 tiles = .ok (s1, d1))
    (h2 : renderCalls env cs2 s1 = .ok (s2, d2)) :
    renderCalls env (cs1 ++ cs2) tiles = .ok (s2, d1 ++ d2) := by
  induction cs1 generalizing tiles d1 with
  | nil =>
    rw [renderCalls] at h1
    cases h1
    simpa using h2
  | cons c cs ih =>
    rw [renderCalls] at h1
    rw [List.cons_append, renderCalls]
    cases hc : render env c.layer c.parameters c.src tiles with
    | error e => rw [hc] at h1; cases h1
    | ok r =>
      obtain ⟨t1, dc⟩ := r
      rw [hc] at h1
      dsimp only at h1 ⊢
      cases hcs : renderCalls env cs t1 with
      | error e => rw [hcs] at h1; cases h1
      | ok r2 =>
        obtain ⟨t2, dcs⟩ := r2
        rw [hcs] at h1
        cases h1
        rw [ih t1 dcs hcs]
        simp

theorem staysPrepared_refl (tiles : List RenderTile) :
    List.Forall₂ StaysPrepared tiles tiles := by
  induction tiles with
  | nil => exact List.Forall₂.nil
  | cons a rest ih => exact List.Forall₂.cons ⟨rfl, fun _ hb _ => hb⟩ ih

theorem staysPrepared_trans (s1 s2 s3 : List RenderTile)
    (h12 : List.Forall₂ StaysPrepared s1 s2) (h23 : List.Forall₂ StaysPrepared s2 s3) :
    List.Forall₂ StaysPrepared s1 s3 := by
  induction h12 generalizing s3 with
  | nil => cases h23; exact List.Forall₂.nil
  | cons hab _ ih =>
    cases h23 with
    | cons hbc hrest =>
      refine List.Forall₂.cons ⟨hbc.1.trans hab.1, fun b hb hprep => ?_⟩ (ih _ hrest)
      exact hbc.2 b (hab.2 b hb hprep) hprep

theorem renderCalls_pass3D_total (env : Env α M) (calls : List (Call α M))
    (tiles : List RenderTile)
    (hp : ∀ c ∈ calls, c.parameters.pass = RenderPass.Pass3D) :
    ∃ s d, renderCalls env calls tiles = .ok (s, d) ∧ List.Forall₂ StaysPrepared tiles s := by
  induction calls generalizing tiles with
  | nil => exact ⟨tiles, [], rfl, staysPrepared_refl tiles⟩
  | cons c cs ih =>
    have hc := hp c (List.mem_cons_self _ _)
    obtain ⟨t1, d1, h1, hs1, _⟩ :=
      renderLoop_pass3D_total env c.layer c.parameters (maxzoomOf c.src) tiles hc
    obtain ⟨t2, d2, h2, hs2⟩ := ih t1 (fun u hu => hp u (List.mem_cons_of_mem _ hu))
    refine ⟨t2, d1 ++ d2, ?_, staysPrepared_trans _ _ _ hs1 hs2⟩
    rw [renderCalls, render_pass3D env c.layer c.parameters c.src tiles hc, h1]
    dsimp only
    rw [h2]

theorem frame_total (env : Env α M) (f : Call α M × Call α M) (tiles : List RenderTile)
    (hinv : ∀ t ∈ tiles, TextureIfPrepared t) :
    ∃ s1 d1 d2,
      render env f.1.layer { f.1.parameters with pass := RenderPass.Pass3D } f.1.src tiles
        = .ok (s1, d1) ∧
      (∀ t ∈ s1, TextureIfPrepared t ∧ ReadyToShade t) ∧
      render env f.2.layer { f.2.parameters with pass := RenderPass.Translucent } f.2.src s1
        = .ok (s1, d2) ∧
      renderCalls env (frameCalls f) tiles = .ok (s1, d1 ++ d2) := by
  obtain ⟨s1, d1, h1, _, hready⟩ := renderLoop_pass3D_total env f.1.layer
    { f.1.parameters with pass := RenderPass.Pass3D } (maxzoomOf f.1.src) tiles rfl
  have hr := hready hinv
  obtain ⟨d2, h2⟩ := renderLoop_translucent_ready env f.2.layer
    { f.2.parameters with pass := RenderPass.Translucent } (maxzoomOf f.2.src) s1 rfl
    (fun t ht => (hr t ht).2)
  have e1 := render_pass3D env f.1.layer { f.1.parameters with pass := RenderPass.Pass3D }
    f.1.src tiles rfl
  have e2 := render_translucent env f.2.layer
    { f.2.parameters with pass := RenderPass.Translucent } f.2.src s1 rfl
  refine ⟨s1, d1, d2, e1.trans h1, hr, e2.trans h2, ?_⟩
  simp only [frameCalls, renderCalls, e1, h1, e2, h2, List.append_nil]

theorem framesCalls_total (env : Env α M) (frames : List (Call α M × Call α M))
    (tiles : List RenderTile) (hinv : ∀ t ∈ tiles, TextureIfPrepared t) :
    ∃ s d, renderCalls env (framesCalls frames) tiles = .ok (s, d) ∧
      ∀ t ∈ s, TextureIfPrepared t := by
  induction frames generalizing tiles with
  | nil => exact ⟨tiles, [], rfl, hinv⟩
  | cons f fs ih =>
    obtain ⟨s1, d1, d2, _, hr, _, hf⟩ := frame_total env f tiles hinv
    obtain ⟨s, d, hs, hsinv⟩ := ih s1 (fun t ht => (hr t ht).1)
    exact ⟨s, (d1 ++ d2) ++ d, renderCalls_append env _ _ tiles s1 s _ _ hf hs, hsinv⟩

omit [Mul α] [Sub α] in
theorem framesCalls_append (frames1 frames2 : List (Call α M × Call α M)) :
    framesCalls (frames1 ++ frames2) = framesCalls frames1 ++ framesCalls frames2 := by
  induction frames1 with
  | nil => rfl
  | cons f fs ih => simp [framesCalls, ih]

theorem renderTile_shade_one (env : Env α M) (layer : RenderHillshadeLayer α)
    (parameters : PaintParameters α M) (maxzoom : Nat) (tile : RenderTile)
    (b : HillshadeBucket) (texture : Texture)
    (h : tile.bucket = some b) (hd : b.hasData = true) (htex : b.texture = some texture)
    (hp : parameters.pass = RenderPass.Translucent) :
    ∃ d, renderTile env layer parameters maxzoom tile = .ok (tile, [Draw.shade d]) ∧
      d.u_image = texture := by
  by_cases hg : b.vertexBuffer = none ∨ b.indexBuffer = none ∨ b.segments = []
  · exact ⟨_, renderTile_shade_full env layer parameters _ tile b texture h hd htex hp hg, rfl⟩
  · obtain ⟨v, hv⟩ : ∃ v, b.vertexBuffer = some v := by
      cases hx : b.vertexBuffer with
      | none => exact absurd (Or.inl hx) hg
      | some v => exact ⟨v, rfl⟩
    obtain ⟨i, hi⟩ : ∃ i, b.indexBuffer = some i := by
      cases hx : b.indexBuffer with
      | none => exact absurd (Or.inr (Or.inl hx)) hg
      | some i => exact ⟨i, rfl⟩
    have hs : b.segments ≠ [] := fun hx => hg (Or.inr (Or.inr hx))
    exact ⟨_, renderTile_shade_own env layer parameters _ tile b texture v i h hd htex
      hp hv hi hs, rfl⟩

theorem renderTile_translucent_draws (env : Env α M) (layer : RenderHillshadeLayer α)
    (parameters : PaintParameters α M) (maxzoom : Nat) (tile : RenderTile)
    (hp : parameters.pass = RenderPass.Translucent) (hr : ReadyToShade tile) :
    ∃ ds, renderTile env layer parameters maxzoom tile = .ok (tile, ds) ∧
      List.Forall₂ ShadesPrepared ([tile].filter RenderTile.hasData) ds := by
  cases hb : tile.bucket with
  | none =>
    refine ⟨[], renderTile_absent env layer parameters _ tile hb, ?_⟩
    simp [RenderTile.hasData, hb]
  | some b =>
    cases hd : b.hasData with
    | false =>
      refine ⟨[], renderTile_noData env layer parameters _ tile b hb hd, ?_⟩
      simp [RenderTile.hasData, hb, hd]
    | true =>
      obtain ⟨hprep, texture, htex⟩ := hr b hb hd
      obtain ⟨sd, h, himg⟩ := renderTile_shade_one env layer parameters maxzoom tile b texture
        hb hd htex hp
      refine ⟨[Draw.shade sd], h, ?_⟩
      have hf : [tile].filter RenderTile.hasData = [tile] := by
        simp [RenderTile.hasData, hb, hd]
      rw [hf]
      exact List.Forall₂.cons ⟨b, texture, sd, hb, hd, hprep, htex, rfl, himg⟩ List.Forall₂.nil

theorem renderLoop_translucent_draws (env : Env α M) (layer : RenderHillshadeLayer α)
    (parameters : PaintParameters α M) (maxzoom : Nat) (tiles : List RenderTile)
    (hp : parameters.pass = RenderPass.Translucent) (hr : ∀ t ∈ tiles, ReadyToShade t) :
    ∃ ds, renderLoop env layer parameters maxzoom tiles = .ok (tiles, ds) ∧
      List.Forall₂ ShadesPrepared (tiles.filter RenderTile.hasData) ds := by
  induction tiles with
  | nil => exact ⟨[], rfl, by simp⟩
  | cons a rest ih =>
    obtain ⟨d, ha, hda⟩ := renderTile_translucent_draws env layer parameters maxzoom a hp
      (hr a (List.mem_cons_self _ _))
    obtain ⟨ds, hrest, hds⟩ := ih (fun u hu => hr u (List.mem_cons_of_mem _ hu))
    refine ⟨d ++ ds, by rw [renderLoop, ha, hrest], ?_⟩
    have hsplit : (a :: rest).filter RenderTile.hasData
        = [a].filter RenderTile.hasData ++ rest.filter RenderTile.hasData := by
      rw [← List.filter_append]
      rfl
    rw [hsplit]
    exact List.rel_append hda hds

theorem renderTile_pass3D_draws (env : Env α M) (layer : RenderHillshadeLayer α)
    (parameters : PaintParameters α M) (maxzoom : Nat) (tile t' : RenderTile)
    (ds : List (Draw α M)) (hp : parameters.pass = RenderPass.Pass3D)
    (h : renderTile env layer parameters maxzoom tile = .ok (t', ds)) :
    ∀ d ∈ ds, ∃ pd, d = Draw.prepare pd := by
  cases hb : tile.bucket with
  | none =>
    rw [renderTile_absent env layer parameters _ tile hb] at h
    cases h
    intro d hd
    cases hd
  | some b =>
    cases hprep : b.isPrepared with
    | true =>
      rw [renderTile_prepared_pass3D env layer parameters _ tile b hb hprep hp] at h
      cases h
      intro d hd
      cases hd
    | false =>
      cases hdem : b.dem with
      | none =>
        have hd : b.hasData = false := by simp [HillshadeBucket.hasData, hdem]
        rw [renderTile_noData env layer parameters _ tile b hb hd] at h
        cases h
        intro d hd
        cases hd
      | some dem =>
        rw [renderTile_prepare env layer parameters _ tile b dem hb hdem hprep hp] at h
        cases h
        intro d hd
        rw [List.mem_singleton] at hd
        exact ⟨_, hd⟩

theorem renderLoop_pass3D_draws (env : Env α M) (layer : RenderHillshadeLayer α)
    (parameters : PaintParameters α M) (maxzoom : Nat) (tiles ts' : List RenderTile)
    (ds : List (Draw α M)) (hp : parameters.pass = RenderPass.Pass3D)
    (h : renderLoop env layer parameters maxzoom tiles = .ok (ts', ds)) :
    ∀ d ∈ ds, ∃ pd, d = Draw.prepare pd := by
  induction tiles generalizing ts' ds with
  | nil =>
    rw [renderLoop] at h
    cases h
    intro d hd
    cases hd
  | cons a rest ih =>
    rw [renderLoop] at h
    cases ha : renderTile env layer parameters maxzoom a with
    | error e => rw [ha] at h; cases h
    | ok r =>
      obtain ⟨a', da⟩ := r
      rw [ha] at h
      cases hrest : renderLoop env layer parameters maxzoom rest with
      | error e => rw [hrest] at h; cases h
      | ok r2 =>
        obtain ⟨rest', ds2⟩ := r2
        rw [hrest] at h
        cases h
        intro d hd
        rcases List.mem_append.mp hd with hd | hd
        · exact renderTile_pass3D_draws env layer parameters maxzoom a a' da hp ha d hd
        · exact ih rest' ds2 hrest d hd

theorem frame_draws (env : Env α M) (f : Call α M × Call α M) (tiles : List RenderTile)
    (hinv : ∀ t ∈ tiles, TextureIfPrepared t) :
    ∃ s1 d1 d2,
      render env f.1.layer { f.1.parameters with pass := RenderPass.Pass3D } f.1.src tiles
        = .ok (s1, d1) ∧
      (∀ t ∈ s1, TextureIfPrepared t ∧ ReadyToShade t) ∧
      render env f.2.layer { f.2.parameters with pass := RenderPass.Translucent } f.2.src s1
        = .ok (s1, d2) ∧
      renderCalls env (frameCalls f) tiles = .ok (s1, d1 ++ d2) ∧
      (∀ d ∈ d1, ∃ pd, d = Draw.prepare pd) ∧
      List.Forall₂ ShadesPrepared (s1.filter RenderTile.hasData) d2 := by
  obtain ⟨s1, d1, h1, _, hready⟩ := renderLoop_pass3D_total env f.1.layer
    { f.1.parameters with pass := RenderPass.Pass3D } (maxzoomOf f.1.src) tiles rfl
  have hr := hready hinv
  obtain ⟨d2, h2, hd2⟩ := renderLoop_translucent_draws env f.2.layer
    { f.2.parameters with pass := RenderPass.Translucent } (maxzoomOf f.2.src) s1 rfl
    (fun t ht => (hr t ht).2)
  have e1 := render_pass3D env f.1.layer { f.1.parameters with pass := RenderPass.Pass3D }
    f.1.src tiles rfl
  have e2 := render_translucent env f.2.layer
    { f.2.parameters with pass := RenderPass.Translucent } f.2.src s1 rfl
  refine ⟨s1, d1, d2, e1.trans h1, hr, e2.trans h2, ?_,
    renderLoop_pass3D_draws env f.1.layer _ _ tiles s1 d1 rfl h1, hd2⟩
  simp only [frameCalls, renderCalls, e1, h1, e2, h2, List.append_nil]

theorem render_pass3D_total (env : Env α M) (layer : RenderHillshadeLayer α)
    (parameters : PaintParameters α M) (src : Option RenderRasterDEMSource)
    (tiles : List RenderTile) (hp : parameters.pass = RenderPass.Pass3D) :
    ∃ s d, render env layer parameters src tiles = .ok (s, d) := by
  obtain ⟨s, d, h, _⟩ := renderLoop_pass3D_total env layer parameters (maxzoomOf src) tiles hp
  exact ⟨s, d, (render_pass3D env layer parameters src tiles hp).trans h⟩

theorem render_pass3D_around (env : Env α M) (layer : RenderHillshadeLayer α)
    (parameters : PaintParameters α M) (src : Option RenderRasterDEMSource)
    (pre post : List RenderTile) (tile : RenderTile) (mid : RenderTile × List (Draw α M))
    (hp : parameters.pass = RenderPass.Pass3D)
    (h : renderTile env layer parameters (maxzoomOf src) tile = .ok mid) :
    ∃ pre' d1 post' d2,
      render env layer parameters src pre = .ok (pre', d1) ∧
      render env layer parameters src post = .ok (post', d2) ∧
      render env layer parameters src (pre ++ tile :: post)
        = .ok (pre' ++ mid.1 :: post', d1 ++ mid.2 ++ d2) := by
  obtain ⟨pre', d1, h1⟩ := render_pass3D_total env layer parameters src pre hp
  obtain ⟨post', d2, h2⟩ := render_pass3D_total env layer parameters src post hp
  refine ⟨pre', d1, post', d2, h1, h2, ?_⟩
  rw [render_splice env layer parameters src pre post tile mid (Or.inl hp) h, h1, h2]
  rfl

end Lemmas

/-! ## Numeric bounds for the zoom-0 latitude -/

section Numeric

theorem exp_pi_bounds : (23.1405 : ℝ) < Real.exp Real.pi ∧ Real.exp Real.pi < 23.1409 := by
  have e1 := Real.exp_one_gt_d9
  have e2 := Real.exp_one_lt_d9
  have hsplit : ∀ x : ℝ, Real.exp (3 + x) = Real.exp 1 ^ 3 * Real.exp x := by
    intro x
    rw [Real.exp_add, ← Real.exp_nat_mul]
    norm_num
  constructor
  · have hT := Real.sum_le_exp_of_nonneg (show (0 : ℝ) ≤ 0.141592 by norm_num) 5
    have hlow : (1.1521 : ℝ) ≤ Real.exp 0.141592 := by
      refine le_trans ?_ hT
      simp only [Finset.sum_range_succ, Finset.sum_range_zero, Nat.factorial]
      norm_num
    have h3 : (2.7182818283 : ℝ) ^ 3 ≤ Real.exp 1 ^ 3 :=
      pow_le_pow_left₀ (by norm_num) e1.le 3
    calc (23.1405 : ℝ) < 2.7182818283 ^ 3 * 1.1521 := by norm_num
      _ ≤ Real.exp 1 ^ 3 * Real.exp 0.141592 :=
          mul_le_mul h3 hlow (by norm_num) (by positivity)
      _ = Real.exp 3.141592 := by rw [← hsplit]; norm_num
      _ < Real.exp Real.pi := Real.exp_lt_exp.mpr Real.pi_gt_d6
  · have hT := Real.exp_bound' (show (0 : ℝ) ≤ 0.141593 by norm_num)
      (show (0.141593 : ℝ) ≤ 1 by norm_num) (show 0 < 5 by norm_num)
    have hup : Real.exp 0.141593 ≤ (1.15211 : ℝ) := by
      refine le_trans hT ?_
      simp only [Finset.sum_range_succ, Finset.sum_range_zero, Nat.factorial]
      norm_num
    have h3 : Real.exp 1 ^ 3 ≤ (2.7182818286 : ℝ) ^ 3 :=
      pow_le_pow_left₀ (Real.exp_pos 1).le e2.le 3
    calc Real.exp Real.pi < Real.exp 3.141593 := Real.exp_lt_exp.mpr Real.pi_lt_d6
      _ = Real.exp 1 ^ 3 * Real.exp 0.141593 := by rw [← hsplit]; norm_num
      _ ≤ 2.7182818286 ^ 3 * 1.15211 :=
          mul_le_mul h3 hup (Real.exp_pos _).le (by norm_num)
      _ < 23.1409 := by norm_num

theorem sinh_pi_bounds : (11.5486 : ℝ) < Real.sinh Real.pi ∧ Real.sinh Real.pi < 11.5489 := by
  obtain ⟨h1, h2⟩ := exp_pi_bounds
  have hpos : 0 < Real.exp Real.pi := Real.exp_pos _
  have hinv_lt : (Real.exp Real.pi)⁻¹ < 0.04322 := by
    rw [inv_lt_comm₀ hpos (by norm_num)]
    exact lt_trans (by norm_num) h1
  have hinv_gt : (0.04321 : ℝ) < (Real.exp Real.pi)⁻¹ := by
    rw [lt_inv_comm₀ (by norm_num) hpos]
    exact lt_trans h2 (by norm_num)
  rw [Real.sinh_eq, Real.exp_neg]
  constructor <;> linarith

theorem arctan_inv_sinh_pi_bounds :
    (0.08636 : ℝ) < Real.arctan (Real.sinh Real.pi)⁻¹ ∧
    Real.arctan (Real.sinh Real.pi)⁻¹ < 0.08639 := by
  obtain ⟨h1, h2⟩ := sinh_pi_bounds
  have hpos : 0 < Real.sinh Real.pi := lt_trans (by norm_num) h1
  have hu_lt : (Real.sinh Real.pi)⁻¹ < 0.086591 := by
    rw [inv_lt_comm₀ hpos (by norm_num)]
    exact lt_trans (by norm_num) h1
  have hu_gt : (0.086588 : ℝ) < (Real.sinh Real.pi)⁻¹ := by
    rw [lt_inv_comm₀ (by norm_num) hpos]
    exact lt_trans h2 (by norm_num)
  have hpi := Real.pi_gt_three
  constructor
  · have hs := (abs_sub_le_iff.1 (Real.sin_bound (show |(0.08636 : ℝ)| ≤ 1 by
      rw [abs_of_pos] <;> norm_num))).1
    have hc := Real.one_sub_sq_div_two_le_cos (x := (0.08636 : ℝ))
    rw [abs_of_pos (show (0 : ℝ) < 0.08636 by norm_num)] at hs
    have hcpos : 0 < Real.cos 0.08636 := lt_of_lt_of_le (by norm_num) hc
    have htan : Real.tan 0.08636 < (Real.sinh Real.pi)⁻¹ := by
      rw [Real.tan_eq_sin_div_cos, div_lt_iff₀ hcpos]
      nlinarith
    have := Real.arctan_strictMono htan
    rwa [Real.arctan_tan (by linarith) (by linarith)] at this
  · have hs := (abs_sub_le_iff.1 (Real.sin_bound (show |(0.08639 : ℝ)| ≤ 1 by
      rw [abs_of_pos] <;> norm_num))).2
    have hc := (abs_sub_le_iff.1 (Real.cos_bound (show |(0.08639 : ℝ)| ≤ 1 by
      rw [abs_of_pos] <;> norm_num))).1
    rw [abs_of_pos (show (0 : ℝ) < 0.08639 by norm_num)] at hs hc
    have hc0 := Real.one_sub_sq_div_two_le_cos (x := (0.08639 : ℝ))
    have hcpos : 0 < Real.cos 0.08639 := lt_of_lt_of_le (by norm_num) hc0
    have htan : (Real.sinh Real.pi)⁻¹ < Real.tan 0.08639 := by
      rw [Real.tan_eq_sin_div_cos, lt_div_iff₀ hcpos]
      nlinarith
    have := Real.arctan_strictMono htan
    rwa [Real.arctan_tan (by linarith) (by linarith)] at this

theorem lat_zero_bounds :
    |Real.arctan (Real.sinh Real.pi) * 180 / Real.pi - 85.0511| < 0.001 := by
  obtain ⟨h1, h2⟩ := arctan_inv_sinh_pi_bounds
  have hpos : 0 < Real.sinh Real.pi := lt_trans (by norm_num) sinh_pi_bounds.1
  have hinv := Real.arctan_inv_of_pos hpos
  have hpi1 := Real.pi_gt_d6
  have hpi2 := Real.pi_lt_d6
  have hpipos : 0 < Real.pi := Real.pi_pos
  have heq : Real.arctan (Real.sinh Real.pi) * 180 / Real.pi
      = 90 - Real.arctan (Real.sinh Real.pi)⁻¹ * 180 / Real.pi := by
    rw [hinv]; field_simp; ring
  rw [heq, abs_lt]
  constructor
  · have : Real.arctan (Real.sinh Real.pi)⁻¹ * 180 / Real.pi < 4.9499 := by
      rw [div_lt_iff₀ hpipos]; nlinarith
    linarith
  · have : (4.9479 : ℝ) < Real.arctan (Real.sinh Real.pi)⁻¹ * 180 / Real.pi := by
      rw [lt_div_iff₀ hpipos]; nlinarith
    linarith

end Numeric

/-! ## Rounding lemmas for the float arithmetic of `getLight` -/

section Rounding

theorem roundHalfEven_error (y : ℚ) : |(roundHalfEven y : ℚ) - y| ≤ 1 / 2 := by
  have h1 := Int.floor_le y
  have h2 := Int.lt_floor_add_one y
  unfold roundHalfEven
  split_ifs with ha hb hc
  · rw [abs_le]; constructor <;> linarith
  · rw [abs_le]; push_cast; constructor <;> linarith
  · rw [abs_le]; constructor <;> linarith
  · rw [abs_le]; push_cast; constructor <;> linarith

theorem roundHalfEven_eq (y : ℚ) (n : ℤ) (h : |y - n| < 1 / 2) : roundHalfEven y = n := by
  have herr := roundHalfEven_error y
  rw [abs_lt] at h
  rw [abs_le] at herr
  have h3 : |((roundHalfEven y - n : ℤ) : ℚ)| < 1 := by
    rw [abs_lt]; push_cast; constructor <;> linarith
  have h4 : |roundHalfEven y - n| < 1 := by exact_mod_cast h3
  have h5 := Int.abs_lt_one_iff.mp h4
  omega

theorem intLog_eq (x : ℚ) (e : ℤ) (h1 : (2 : ℚ) ^ e ≤ x) (h2 : x < (2 : ℚ) ^ (e + 1)) :
    Int.log 2 x = e := by
  have hpos : 0 < x := lt_of_lt_of_le (by positivity) h1
  have hle : e ≤ Int.log 2 x :=
    (Int.zpow_le_iff_le_log (by norm_num) hpos).mp (by exact_mod_cast h1)
  have hlt : Int.log 2 x < e + 1 :=
    (Int.lt_zpow_iff_log_lt (by norm_num) hpos).mp (by exact_mod_cast h2)
  omega

theorem roundBinary_eq (p : Nat) (emin : Int) (x : ℚ) (e n : ℤ) (he : emin ≤ e)
    (h1 : (2 : ℚ) ^ e ≤ |x|) (h2 : |x| < (2 : ℚ) ^ (e + 1))
    (hn : |x / 2 ^ (e - ((p : Int) - 1)) - n| < 1 / 2) :
    roundBinary p emin x = n * 2 ^ (e - ((p : Int) - 1)) := by
  unfold roundBinary
  simp only [intLog_eq |x| e h1 h2, max_eq_left he]
  rw [roundHalfEven_eq _ n hn]

theorem roundBinary_error (p : Nat) (emin : Int) (x : ℚ) (k : ℤ) (hk : emin ≤ k)
    (hk0 : 0 ≤ k) (hx : |x| < (2 : ℚ) ^ (k + 1)) :
    |roundBinary p emin x - x| ≤ 2 ^ (k - (p : Int)) := by
  have hlog : Int.log 2 |x| ≤ k := by
    rcases (abs_nonneg x).eq_or_lt with h0 | hpos
    · rw [← h0, Int.log_of_right_le_zero _ le_rfl]; exact hk0
    · have : Int.log 2 |x| < k + 1 :=
        (Int.lt_zpow_iff_log_lt (by norm_num) hpos).mp (by exact_mod_cast hx)
      omega
  have he : max (Int.log 2 |x|) emin ≤ k := max_le hlog hk
  unfold roundBinary
  set e := max (Int.log 2 |x|) emin with hedef
  set ulp : ℚ := 2 ^ (e - ((p : Int) - 1)) with hulp
  have hupos : 0 < ulp := by positivity
  have hule : ulp ≤ 2 ^ (k - ((p : Int) - 1)) :=
    zpow_le_zpow_right₀ (by norm_num) (by omega)
  have herr := roundHalfEven_error (x / ulp)
  have heq : (roundHalfEven (x / ulp) : ℚ) * ulp - x
      = ((roundHalfEven (x / ulp) : ℚ) - x / ulp) * ulp := by
    field_simp
  have hhalf : (2 : ℚ) ^ (k - ((p : Int) - 1)) = 2 * 2 ^ (k - (p : Int)) := by
    rw [show k - ((p : Int) - 1) = (k - (p : Int)) + 1 by ring, zpow_add_one₀ (by norm_num)]
    ring
  show |(roundHalfEven (x / ulp) : ℚ) * ulp - x| ≤ 2 ^ (k - (p : Int))
  rw [heq, abs_mul, abs_of_pos hupos]
  calc |(roundHalfEven (x / ulp) : ℚ) - x / ulp| * ulp ≤ 1 / 2 * ulp :=
        mul_le_mul_of_nonneg_right herr hupos.le
    _ ≤ 1 / 2 * (2 * 2 ^ (k - (p : Int))) := by
        rw [← hhalf]; exact mul_le_mul_of_nonneg_left hule (by norm_num)
    _ = 2 ^ (k - (p : Int)) := by ring

theorem toFloat_error8 (x : ℚ) (hx : |x| < 8) : |toFloat x - x| ≤ 1 / 4194304 := by
  have := roundBinary_error 24 (-126) x 2 (by norm_num) (by norm_num) (by norm_num; exact hx)
  norm_num at this
  simpa [toFloat] using this

theorem toFloat_error16 (x : ℚ) (hx : |x| < 16) : |toFloat x - x| ≤ 1 / 2097152 := by
  have := roundBinary_error 24 (-126) x 3 (by norm_num) (by norm_num) (by norm_num; exact hx)
  norm_num at this
  simpa [toFloat] using this

theorem toDouble_error16 (x : ℚ) (hx : |x| < 16) :
    |toDouble x - x| ≤ 1 / 1125899906842624 := by
  have := roundBinary_error 53 (-1022) x 3 (by norm_num) (by norm_num) (by norm_num; exact hx)
  norm_num at this
  simpa [toDouble] using this

theorem floatTimesDouble_error (a b : ℚ) (h : |a * b| < 7) :
    |floatTimesDouble a b - a * b| ≤ 1 / 4000000 := by
  have h1 := toDouble_error16 (a * b) (lt_trans h (by norm_num))
  have h2 : |toDouble (a * b)| < 8 := by
    rw [abs_lt] at h ⊢
    rw [abs_le] at h1
    constructor <;> linarith
  have h3 := toFloat_error8 _ h2
  unfold floatTimesDouble
  rw [abs_le] at h1 h3 ⊢
  constructor <;> linarith

theorem floatMinusDouble_error (a b : ℚ) (h : |a - b| < 15) :
    |floatMinusDouble a b - (a - b)| ≤ 1 / 2000000 := by
  have h1 := toDouble_error16 (a - b) (lt_trans h (by norm_num))
  have h2 : |toDouble (a - b)| < 16 := by
    rw [abs_lt] at h ⊢
    rw [abs_le] at h1
    constructor <;> linarith
  have h3 := toFloat_error16 _ h2
  unfold floatMinusDouble
  rw [abs_le] at h1 h3 ⊢
  constructor <;> linarith

theorem getLightFloat_map {M : Type} (env : Env ℚ M) (layer : RenderHillshadeLayer ℚ)
    (parameters : PaintParameters ℚ M)
    (h : layer.evaluated.illuminationAnchor = HillshadeIlluminationAnchorType.Map) :
    getLightFloat env layer parameters
      = (layer.evaluated.exaggeration,
         floatTimesDouble layer.evaluated.illuminationDirection env.DEG2RAD) := by
  simp only [getLightFloat, getLight, h]
  rfl

theorem getLightFloat_viewport {M : Type} (env : Env ℚ M) (layer : RenderHillshadeLayer ℚ)
    (parameters : PaintParameters ℚ M)
    (h : layer.evaluated.illuminationAnchor = HillshadeIlluminationAnchorType.Viewport) :
    getLightFloat env layer parameters
      = (layer.evaluated.exaggeration,
         floatMinusDouble
           (floatTimesDouble layer.evaluated.illuminationDirection env.DEG2RAD)
           parameters.bearing) := by
  simp only [getLightFloat, getLight, h]
  rfl

theorem floatTimesDouble_315 :
    floatTimesDouble 315 exDEG2RAD = 11529695 / 2097152 := by
  have h1 : toDouble (315 * exDEG2RAD) = 6189958033024885 / 1125899906842624 := by
    unfold toDouble exDEG2RAD
    rw [roundBinary_eq 53 (-1022) _ 2 6189958033024885 (by norm_num)
      (by norm_num [abs_of_pos]) (by norm_num [abs_of_pos]) (by norm_num [abs_lt])]
    norm_num
  unfold floatTimesDouble
  rw [h1]
  unfold toFloat
  rw [roundBinary_eq 24 (-126) _ 2 11529695 (by norm_num)
    (by norm_num [abs_of_pos]) (by norm_num [abs_of_pos]) (by norm_num [abs_lt])]
  norm_num

theorem floatMinusDouble_halfPi :
    floatMinusDouble (11529695 / 2097152) exHalfPi = 16470993 / 4194304 := by
  have h1 : toDouble (11529695 / 2097152 - exHalfPi)
      = 2210699215862365 / 562949953421312 := by
    unfold toDouble exHalfPi
    rw [roundBinary_eq 53 (-1022) _ 1 8842796863449460 (by norm_num)
      (by norm_num [abs_of_pos]) (by norm_num [abs_of_pos]) (by norm_num [abs_lt])]
    norm_num
  unfold floatMinusDouble
  rw [h1]
  unfold toFloat
  rw [roundBinary_eq 24 (-126) _ 1 16470993 (by norm_num)
    (by norm_num [abs_of_pos]) (by norm_num [abs_of_pos]) (by norm_num [abs_lt])]
  norm_num

end Rounding

/-! ## The claims -/

section Claims

variable {α M : Type} [Mul α] [Sub α]

/-- C4: in every render pass, a tile whose bucket is absent or whose bucket has
`hasData() == false` makes the loop body submit no draw (neither prepare nor shade) and leaves
the tile's bucket as it was; a `render` call over any tile set containing the tile is the call
on the tiles before it and the tiles after it, with the tile returned unchanged between them
and no draw added for it. -/
theorem render_skips_tile_without_data (env : Env α M) (layer : RenderHillshadeLayer α)
    (parameters : PaintParameters α M) (src : Option RenderRasterDEMSource)
    (pre post : List RenderTile) (tile : RenderTile)
    (h : tile.bucket = none ∨ ∃ b, tile.bucket = some b ∧ b.hasData = false) :
    renderTile env layer parameters (maxzoomOf src) tile = .ok (tile, []) ∧
    render env layer parameters src (pre ++ tile :: post)
      = splice (render env layer parameters src pre) (tile, [])
          (render env layer parameters src post) := by
  have hbody : renderTile env layer parameters (maxzoomOf src) tile = .ok (tile, []) := by
    rcases h with h | ⟨b, hb, hd⟩
    · exact renderTile_absent env layer parameters _ tile h
    · exact renderTile_noData env layer parameters _ tile b hb hd
  exact ⟨hbody, render_splice_skip env layer parameters src pre post tile hbody⟩

/-- Witness of C4: a Translucent call over a prepared tile, a tile without data and a tile
without bucket draws only the first. -/
theorem render_skips_tile_without_data_witness :
    (∃ b, (⟨exId, some exNoData⟩ : RenderTile).bucket = some b ∧ b.hasData = false) ∧
    render exEnv (exLayer 1 (RenderPass.union RenderPass.Translucent RenderPass.Pass3D))
        (exParams RenderPass.Translucent) none
        ([⟨exId, some exPrepared⟩] ++ ⟨exId, some exNoData⟩ :: [⟨exId, none⟩])
      = splice
          (render exEnv (exLayer 1 (RenderPass.union RenderPass.Translucent RenderPass.Pass3D))
            (exParams RenderPass.Translucent) none [⟨exId, some exPrepared⟩])
          (⟨exId, some exNoData⟩, [])
          (render exEnv (exLayer 1 (RenderPass.union RenderPass.Translucent RenderPass.Pass3D))
            (exParams RenderPass.Translucent) none [⟨exId, none⟩]) :=
  ⟨⟨exNoData, rfl, rfl⟩,
   (render_skips_tile_without_data exEnv _ (exParams RenderPass.Translucent) none
      [⟨exId, some exPrepared⟩] [⟨exId, none⟩] ⟨exId, some exNoData⟩
      (Or.inr ⟨exNoData, rfl, rfl⟩)).2⟩

/-- C10: a `Pass3D` call over a tile set completes, and a tile of the set whose bucket has
data and is not prepared gets exactly one draw, the prepare draw, between the draws of the
tiles before it and of the tiles after it: into an off-screen target of size `(dim, dim)`,
with `u_dimension = (stride, stride)`, `u_zoom` the tile's canonical zoom and `u_maxzoom` the
source's max zoom (15 without source), over the shared quad, sampling the bucket's elevation
texture; the call leaves the bucket with the target's texture as its shaded texture and with
`isPrepared()` true. The values `dim`, `stride` and the max zoom are in the range of the
`uint16_t`, `uint16_t` and `uint8_t` locals that hold them. -/
theorem render_prepare_draw (env : Env α M) (layer : RenderHillshadeLayer α)
    (parameters : PaintParameters α M) (src : Option RenderRasterDEMSource)
    (pre post : List RenderTile) (tile : RenderTile) (b : HillshadeBucket)
    (hp : parameters.pass = RenderPass.Pass3D)
    (hb : tile.bucket = some b) (hd : b.hasData = true) (hprep : b.isPrepared = false)
    (hdim : b.getDEMData.dim < 65536) (hstride : b.getDEMData.stride < 65536)
    (hmax : ∀ s, src = some s → s.getMaxZoom < 256) :
    ∃ dem b' pre' d1 post' d2, b.dem = some dem ∧
      b' = { b with texture :=
                      some (OffscreenTexture.getTexture ⟨(b.getDEMData.dim, b.getDEMData.dim)⟩),
                    prepared := true } ∧
      b'.isPrepared = true ∧
      render env layer parameters src pre = .ok (pre', d1) ∧
      render env layer parameters src post = .ok (post', d2) ∧
      render env layer parameters src (pre ++ tile :: post)
        = .ok (pre' ++ { tile with bucket := some b' } :: post',
            d1 ++ [Draw.prepare
                { target := ⟨(b.getDEMData.dim, b.getDEMData.dim)⟩
                  u_matrix := env.mat
                  u_dimension := (b.getDEMData.stride, b.getDEMData.stride)
                  u_zoom := tile.id.canonical.z
                  u_maxzoom := (src.map RenderRasterDEMSource.getMaxZoom).getD 15
                  geometry := ⟨parameters.staticData.rasterVertexBuffer,
                               parameters.staticData.quadTriangleIndexBuffer,
                               parameters.staticData.rasterSegments⟩
                  u_image := dem
                  layerID := layer.id }] ++ d2) := by
  obtain ⟨dem, hdem⟩ : ∃ dem, b.dem = some dem := by
    cases hx : b.dem with
    | none => simp [HillshadeBucket.hasData, hx] at hd
    | some dem => exact ⟨dem, rfl⟩
  have hmz : maxzoomOf src = (src.map RenderRasterDEMSource.getMaxZoom).getD 15 := by
    cases src with
    | none => rfl
    | some s => exact Nat.mod_eq_of_lt (hmax s rfl)
  have hdim' : b.demdata.dim % 65536 = b.demdata.dim := Nat.mod_eq_of_lt hdim
  have hstride' : b.demdata.stride % 65536 = b.demdata.stride := Nat.mod_eq_of_lt hstride
  have hbody := renderTile_prepare env layer parameters (maxzoomOf src) tile b dem hb hdem
    hprep hp
  rw [hdim', hstride'] at hbody
  obtain ⟨pre', d1, post', d2, h1, h2, h⟩ :=
    render_pass3D_around env layer parameters src pre post tile _ hp hbody
  refine ⟨dem, _, pre', d1, post', d2, hdem, rfl, rfl, h1, h2, ?_⟩
  rw [h, hmz]
  rfl

/-- Witness of C10: one unprepared tile of dimension 256 and stride 258 at zoom 4, no
source, after a tile without data. -/
theorem render_prepare_draw_witness :
    ∃ dem b' pre' d1 post' d2, exFresh.dem = some dem ∧
      b' = { exFresh with texture := some (OffscreenTexture.getTexture ⟨(256, 256)⟩),
                          prepared := true } ∧
      b'.isPrepared = true ∧
      render exEnv (exLayer 1 RenderPass.None) (exParams RenderPass.Pass3D) none
          [⟨exId, some exNoData⟩] = .ok (pre', d1) ∧
      render exEnv (exLayer 1 RenderPass.None) (exParams RenderPass.Pass3D) none []
        = .ok (post', d2) ∧
      render exEnv (exLayer 1 RenderPass.None) (exParams RenderPass.Pass3D) none
          ([⟨exId, some exNoData⟩] ++ (⟨exId, some exFresh⟩ : RenderTile) :: [])
        = .ok (pre' ++ { (⟨exId, some exFresh⟩ : RenderTile) with bucket := some b' } :: post',
            d1 ++ [Draw.prepare
                { target := ⟨(256, 256)⟩
                  u_matrix := exEnv.mat
                  u_dimension := (258, 258)
                  u_zoom := 4
                  u_maxzoom := 15
                  geometry := ⟨⟨1⟩, ⟨2⟩, [⟨0, 0, 4, 6⟩]⟩
                  u_image := dem
                  layerID := "hillshade" }] ++ d2) :=
  render_prepare_draw exEnv (exLayer 1 RenderPass.None) (exParams RenderPass.Pass3D) none
    [⟨exId, some exNoData⟩] [] ⟨exId, some exFresh⟩ exFresh rfl rfl rfl rfl
    (by decide) (by decide) (fun _ h => by cases h)

/-- C8: in a `Translucent` call, a tile whose bucket has data and is prepared gets exactly
one draw, the shade draw, between the draws of the tiles before it and of the tiles after it,
and the tile is left unchanged. The draw is submitted with the bucket's own vertex buffer,
index buffer and segments when the bucket has all three and the segment list is not empty,
and with the shared full-tile quad (`rasterVertexBuffer`, `quadTriangleIndexBuffer`,
`rasterSegments`) otherwise; in both cases with the aligned tile matrix, the evaluated
colours, the light and latitude range of the tile, and the bucket's shaded texture bound to
`u_image`. The tile is one that `render` can have produced: its bucket, being prepared,
holds the shaded texture that the prepare draw attached. -/
theorem render_shade_draw (env : Env α M) (layer : RenderHillshadeLayer α)
    (parameters : PaintParameters α M) (src : Option RenderRasterDEMSource)
    (pre post : List RenderTile) (tile : RenderTile) (b : HillshadeBucket)
    (hp : parameters.pass = RenderPass.Translucent)
    (hb : tile.bucket = some b) (hd : b.hasData = true) (hprep : b.isPrepared = true)
    (hinv : TextureIfPrepared tile) :
    ∃ texture, b.texture = some texture ∧
      (∀ v i, b.vertexBuffer = some v → b.indexBuffer = some i → b.segments ≠ [] →
        render env layer parameters src (pre ++ tile :: post)
          = splice (render env layer parameters src pre)
              (tile,
               [Draw.shade
                  { u_matrix := parameters.matrixForTile tile.id true
                    u_highlight := layer.evaluated.highlightColor
                    u_shadow := layer.evaluated.shadowColor
                    u_accent := layer.evaluated.accentColor
                    u_light :=
                      (layer.evaluated.exaggeration,
                       if layer.evaluated.illuminationAnchor
                            = HillshadeIlluminationAnchorType.Viewport then
                         layer.evaluated.illuminationDirection * env.DEG2RAD
                           - parameters.bearing
                       else layer.evaluated.illuminationDirection * env.DEG2RAD)
                    u_latrange :=
                      (env.lat tile.id.canonical.z tile.id.canonical.y,
                       env.lat tile.id.canonical.z (tile.id.canonical.y + 1))
                    geometry := { vertexBuffer := v, indexBuffer := i, segments := b.segments }
                    u_image := texture
                    layerID := layer.id }])
              (render env layer parameters src post)) ∧
      (b.vertexBuffer = none ∨ b.indexBuffer = none ∨ b.segments = [] →
        render env layer parameters src (pre ++ tile :: post)
          = splice (render env layer parameters src pre)
              (tile,
               [Draw.shade
                  { u_matrix := parameters.matrixForTile tile.id true
                    u_highlight := layer.evaluated.highlightColor
                    u_shadow := layer.evaluated.shadowColor
                    u_accent := layer.evaluated.accentColor
                    u_light :=
                      (layer.evaluated.exaggeration,
                       if layer.evaluated.illuminationAnchor
                            = HillshadeIlluminationAnchorType.Viewport then
                         layer.evaluated.illuminationDirection * env.DEG2RAD
                           - parameters.bearing
                       else layer.evaluated.illuminationDirection * env.DEG2RAD)
                    u_latrange :=
                      (env.lat tile.id.canonical.z tile.id.canonical.y,
                       env.lat tile.id.canonical.z (tile.id.canonical.y + 1))
                    geometry :=
                      { vertexBuffer := parameters.staticData.rasterVertexBuffer
                        indexBuffer := parameters.staticData.quadTriangleIndexBuffer
                        segments := parameters.staticData.rasterSegments }
                    u_image := texture
                    layerID := layer.id }])
              (render env layer parameters src post)) := by
  obtain ⟨texture, htex⟩ := hinv b hb hprep
  refine ⟨texture, htex, ?_, ?_⟩
  · intro v i hv hi hs
    exact render_splice env layer parameters src pre post tile _ (Or.inr hp)
      (renderTile_shade_own env layer parameters _ tile b texture v i hb hd htex hp hv hi hs)
  · intro hg
    exact render_splice env layer parameters src pre post tile _ (Or.inr hp)
      (renderTile_shade_full env layer parameters _ tile b texture hb hd htex hp hg)

/-- Witness of C8: of two prepared tiles in one `Translucent` call, the one with partial
geometry is drawn once with its own buffers and segments, the one without once with the
shared quad. -/
theorem render_shade_draw_witness :
    render exEnv (exLayer 1 RenderPass.None) (exParams RenderPass.Translucent) none
        ([] ++ (⟨exId, some exPartial⟩ : RenderTile) :: [⟨exId, some exPrepared⟩])
      = splice
          (render exEnv (exLayer 1 RenderPass.None) (exParams RenderPass.Translucent) none [])
          (⟨exId, some exPartial⟩,
           [Draw.shade
              { u_matrix := 1
                u_highlight := ⟨1000, 1000, 1000, 1000⟩
                u_shadow := ⟨0, 0, 0, 1000⟩
                u_accent := ⟨0, 0, 0, 1000⟩
                u_light := (1, 315)
                u_latrange := (0, 0)
                geometry := { vertexBuffer := ⟨7⟩, indexBuffer := ⟨8⟩,
                              segments := [⟨0, 0, 4, 6⟩] }
                u_image := ⟨(256, 256)⟩
                layerID := "hillshade" }])
          (render exEnv (exLayer 1 RenderPass.None) (exParams RenderPass.Translucent) none
            [⟨exId, some exPrepared⟩]) ∧
    render exEnv (exLayer 1 RenderPass.None) (exParams RenderPass.Translucent) none
        ([⟨exId, some exPartial⟩] ++ (⟨exId, some exPrepared⟩ : RenderTile) :: [])
      = splice
          (render exEnv (exLayer 1 RenderPass.None) (exParams RenderPass.Translucent) none
            [⟨exId, some exPartial⟩])
          (⟨exId, some exPrepared⟩,
           [Draw.shade
              { u_matrix := 1
                u_highlight := ⟨1000, 1000, 1000, 1000⟩
                u_shadow := ⟨0, 0, 0, 1000⟩
                u_accent := ⟨0, 0, 0, 1000⟩
                u_light := (1, 315)
                u_latrange := (0, 0)
                geometry := { vertexBuffer := ⟨1⟩, indexBuffer := ⟨2⟩,
                              segments := [⟨0, 0, 4, 6⟩] }
                u_image := ⟨(256, 256)⟩
                layerID := "hillshade" }])
          (render exEnv (exLayer 1 RenderPass.None) (exParams RenderPass.Translucent) none
            []) := by
  constructor
  · obtain ⟨texture, htex, hown, _⟩ :=
      render_shade_draw exEnv (exLayer 1 RenderPass.None) (exParams RenderPass.Translucent)
        none [] [⟨exId, some exPrepared⟩] ⟨exId, some exPartial⟩ exPartial rfl rfl rfl rfl
        (fun b hb _ => by cases hb; exact ⟨_, rfl⟩)
    cases htex
    exact hown ⟨7⟩ ⟨8⟩ rfl rfl (by decide)
  · obtain ⟨texture, htex, _, hfull⟩ :=
      render_shade_draw exEnv (exLayer 1 RenderPass.None) (exParams RenderPass.Translucent)
        none [⟨exId, some exPartial⟩] [] ⟨exId, some exPrepared⟩ exPrepared rfl rfl rfl rfl
        (fun b hb _ => by cases hb; exact ⟨_, rfl⟩)
    cases htex
    exact hfull (Or.inl rfl)

/-- C5: `evaluate` stores the evaluated properties and sets the active pass set to exactly
`Translucent` and `Pass3D` when the evaluated exaggeration is above zero and to
`RenderPass::None` otherwise; the set is never `Translucent` alone nor `Pass3D` alone. -/
theorem evaluate_passes {α : Type} [Zero α] [Preorder α] [DecidableRel (fun a b : α => a < b)]
    (layer : RenderHillshadeLayer α) (ev : Evaluated α) :
    (0 < ev.exaggeration → (evaluate layer ev).passes = ⟨false, true, true⟩) ∧
    (¬ 0 < ev.exaggeration → (evaluate layer ev).passes = RenderPass.None) ∧
    (evaluate layer ev).passes ≠ RenderPass.Translucent ∧
    (evaluate layer ev).passes ≠ RenderPass.Pass3D ∧
    (evaluate layer ev).evaluated = ev := by
  by_cases h : 0 < ev.exaggeration
  · simp [evaluate, h, RenderPass.union, RenderPass.Translucent, RenderPass.Pass3D]
  · simp [evaluate, h, RenderPass.None, RenderPass.Translucent, RenderPass.Pass3D]

/-- Witness of C5: exaggeration 1 activates both passes, exaggeration 0 none. -/
theorem evaluate_passes_witness :
    (evaluate (exLayer 0 RenderPass.None) (exEvaluated 1)).passes = ⟨false, true, true⟩ ∧
    (evaluate (exLayer 0 RenderPass.Translucent) (exEvaluated 0)).passes = RenderPass.None :=
  ⟨(evaluate_passes (exLayer 0 RenderPass.None) (exEvaluated 1)).1 (by decide),
   (evaluate_passes (exLayer 0 RenderPass.Translucent) (exEvaluated 0)).2.1 (by decide)⟩

/-- C1: over any sequence of `Pass3D` calls of `render` on one tile set, every call
completes, and a bucket that is prepared after some of the calls is still the same bucket,
prepared and with the same shaded texture, after any further calls: `isPrepared()` never
returns to false, so it changes from false to true at most once. A `Pass3D` call over a tile
set completes, and a tile of the set whose bucket is already prepared gets no draw and is
left unchanged: the result is the tiles before it and after it as the call leaves them, with
the tile unchanged between them, and the draws for those other tiles only. -/
theorem prepared_is_permanent (env : Env α M) (calls1 calls2 : List (Call α M))
    (tiles : List RenderTile) (layer : RenderHillshadeLayer α)
    (parameters : PaintParameters α M) (src : Option RenderRasterDEMSource)
    (pre post : List RenderTile) (tile : RenderTile) (b : HillshadeBucket)
    (hcalls : ∀ c ∈ calls1 ++ calls2, c.parameters.pass = RenderPass.Pass3D)
    (hp : parameters.pass = RenderPass.Pass3D)
    (hb : tile.bucket = some b) (hprep : b.isPrepared = true) :
    (∃ s1 d1 s2 d2,
      renderCalls env calls1 tiles = .ok (s1, d1) ∧
      renderCalls env calls2 s1 = .ok (s2, d2) ∧
      renderCalls env (calls1 ++ calls2) tiles = .ok (s2, d1 ++ d2) ∧
      List.Forall₂ StaysPrepared s1 s2) ∧
    ∃ pre' d1 post' d2,
      render env layer parameters src pre = .ok (pre', d1) ∧
      render env layer parameters src post = .ok (post', d2) ∧
      render env layer parameters src (pre ++ tile :: post)
        = .ok (pre' ++ tile :: post', d1 ++ d2) := by
  constructor
  · obtain ⟨s1, d1, h1, _⟩ := renderCalls_pass3D_total env calls1 tiles
      (fun c hc => hcalls c (List.mem_append_left _ hc))
    obtain ⟨s2, d2, h2, hs⟩ := renderCalls_pass3D_total env calls2 s1
      (fun c hc => hcalls c (List.mem_append_right _ hc))
    exact ⟨s1, d1, s2, d2, h1, h2, renderCalls_append env _ _ tiles s1 s2 d1 d2 h1 h2, hs⟩
  · obtain ⟨pre', d1, post', d2, h1, h2, h⟩ :=
      render_pass3D_around env layer parameters src pre post tile _ hp
        (renderTile_prepared_pass3D env layer parameters _ tile b hb hprep hp)
    exact ⟨pre', d1, post', d2, h1, h2, by simpa using h⟩

/-- Witness of C1: one `Pass3D` call prepares a fresh bucket, a second one leaves it as it
is; a `Pass3D` call on a prepared tile returns it without a draw. -/
theorem prepared_is_permanent_witness :
    (∃ s1 d1 s2 d2,
      renderCalls exEnv [⟨exLayer 1 RenderPass.None, exParams RenderPass.Pass3D, none⟩]
        [⟨exId, some exFresh⟩] = .ok (s1, d1) ∧
      renderCalls exEnv [⟨exLayer 1 RenderPass.None, exParams RenderPass.Pass3D, none⟩] s1
        = .ok (s2, d2) ∧
      renderCalls exEnv
        ([⟨exLayer 1 RenderPass.None, exParams RenderPass.Pass3D, none⟩] ++
          [⟨exLayer 1 RenderPass.None, exParams RenderPass.Pass3D, none⟩])
        [⟨exId, some exFresh⟩] = .ok (s2, d1 ++ d2) ∧
      List.Forall₂ StaysPrepared s1 s2) ∧
    ∃ pre' d1 post' d2,
      render exEnv (exLayer 1 RenderPass.None) (exParams RenderPass.Pass3D) none
          [⟨exId, some exFresh⟩] = .ok (pre', d1) ∧
      render exEnv (exLayer 1 RenderPass.None) (exParams RenderPass.Pass3D) none []
        = .ok (post', d2) ∧
      render exEnv (exLayer 1 RenderPass.None) (exParams RenderPass.Pass3D) none
          ([⟨exId, some exFresh⟩] ++ (⟨exId, some exPrepared⟩ : RenderTile) :: [])
        = .ok (pre' ++ ⟨exId, some exPrepared⟩ :: post', d1 ++ d2) :=
  prepared_is_permanent exEnv
    [⟨exLayer 1 RenderPass.None, exParams RenderPass.Pass3D, none⟩]
    [⟨exLayer 1 RenderPass.None, exParams RenderPass.Pass3D, none⟩]
    [⟨exId, some exFresh⟩] (exLayer 1 RenderPass.None) (exParams RenderPass.Pass3D) none
    [⟨exId, some exFresh⟩] [] ⟨exId, some exPrepared⟩ exPrepared
    (fun c hc => by
      simp only [List.mem_append, List.mem_singleton, or_self] at hc
      rw [hc]; rfl)
    rfl rfl rfl

/-- C2: starting from tiles whose buckets are unprepared and hold no shaded texture, run any
number of frames, each a `Pass3D` call of `render` followed by a `Translucent` call over the
same tiles, and then one more frame. The earlier frames complete; the `Pass3D` call of the
last frame completes, submits prepare draws only, and leaves every bucket that has data
prepared and holding a shaded texture; the `Translucent` call then completes, so
`assert(bucket.texture)` held at every tile that reached it, it leaves the tiles as they
were, and its draws are, in order, exactly one shade draw for each tile whose bucket has
data, each for a bucket with `isPrepared()` true and sampling that bucket's shaded texture:
no shade draw is submitted for a bucket that is not prepared. The frame is any frame of the
sequence, since the number of frames before it is arbitrary. -/
theorem shade_only_after_prepare (env : Env α M) (frames : List (Call α M × Call α M))
    (f : Call α M × Call α M) (tiles : List RenderTile)
    (hfresh : ∀ t ∈ tiles, ∀ b, t.bucket = some b →
      b.isPrepared = false ∧ b.texture = none) :
    ∃ s0 d0 s1 d1 d2,
      renderCalls env (framesCalls frames) tiles = .ok (s0, d0) ∧
      render env f.1.layer { f.1.parameters with pass := RenderPass.Pass3D } f.1.src s0
        = .ok (s1, d1) ∧
      (∀ t ∈ s1, ∀ b, t.bucket = some b → b.hasData = true →
        b.isPrepared = true ∧ ∃ texture, b.texture = some texture) ∧
      render env f.2.layer { f.2.parameters with pass := RenderPass.Translucent } f.2.src s1
        = .ok (s1, d2) ∧
      renderCalls env (framesCalls (frames ++ [f])) tiles = .ok (s1, d0 ++ (d1 ++ d2)) ∧
      (∀ d ∈ d1, ∃ pd, d = Draw.prepare pd) ∧
      List.Forall₂
        (fun t d => ∃ b texture sd, t.bucket = some b ∧ b.hasData = true ∧
          b.isPrepared = true ∧ b.texture = some texture ∧ d = Draw.shade sd ∧
          sd.u_image = texture)
        (s1.filter (fun t => match t.bucket with
                             | some b => b.hasData
                             | none => false)) d2 := by
  have hinv : ∀ t ∈ tiles, TextureIfPrepared t := by
    intro t ht b hb hprep
    rw [(hfresh t ht b hb).1] at hprep
    cases hprep
  obtain ⟨s0, d0, h0, hinv0⟩ := framesCalls_total env frames tiles hinv
  obtain ⟨s1, d1, d2, h1, hr, h2, hf, hd1, hd2⟩ := frame_draws env f s0 hinv0
  refine ⟨s0, d0, s1, d1, d2, h0, h1, fun t ht => (hr t ht).2, h2, ?_, hd1, hd2⟩
  rw [framesCalls_append]
  refine renderCalls_append env _ _ tiles s0 s1 d0 (d1 ++ d2) h0 ?_
  simpa [framesCalls] using hf

/-- Witness of C2: two frames over one fresh tile and one tile without data. -/
theorem shade_only_after_prepare_witness :
    ∃ s0 d0 s1 d1 d2,
      renderCalls exEnv
        (framesCalls [(⟨exLayer 1 RenderPass.None, exParams RenderPass.None, none⟩,
                       ⟨exLayer 1 RenderPass.None, exParams RenderPass.None, none⟩)])
        [⟨exId, some exFresh⟩, ⟨exId, some exNoData⟩] = .ok (s0, d0) ∧
      render exEnv (exLayer 1 RenderPass.None)
        { exParams RenderPass.None with pass := RenderPass.Pass3D } none s0 = .ok (s1, d1) ∧
      (∀ t ∈ s1, ∀ b, t.bucket = some b → b.hasData = true →
        b.isPrepared = true ∧ ∃ texture, b.texture = some texture) ∧
      render exEnv (exLayer 1 RenderPass.None)
        { exParams RenderPass.None with pass := RenderPass.Translucent } none s1
        = .ok (s1, d2) ∧
      renderCalls exEnv
        (framesCalls ([(⟨exLayer 1 RenderPass.None, exParams RenderPass.None, none⟩,
                        ⟨exLayer 1 RenderPass.None, exParams RenderPass.None, none⟩)] ++
          [(⟨exLayer 1 RenderPass.None, exParams RenderPass.None, none⟩,
            ⟨exLayer 1 RenderPass.None, exParams RenderPass.None, none⟩)]))
        [⟨exId, some exFresh⟩, ⟨exId, some exNoData⟩] = .ok (s1, d0 ++ (d1 ++ d2)) ∧
      (∀ d ∈ d1, ∃ pd, d = Draw.prepare pd) ∧
      List.Forall₂
        (fun t d => ∃ b texture sd, t.bucket = some b ∧ b.hasData = true ∧
          b.isPrepared = true ∧ b.texture = some texture ∧ d = Draw.shade sd ∧
          sd.u_image = texture)
        (s1.filter (fun t => match t.bucket with
                             | some b => b.hasData
                             | none => false)) d2 :=
  shade_only_after_prepare exEnv
    [(⟨exLayer 1 RenderPass.None, exParams RenderPass.None, none⟩,
      ⟨exLayer 1 RenderPass.None, exParams RenderPass.None, none⟩)]
    (⟨exLayer 1 RenderPass.None, exParams RenderPass.None, none⟩,
     ⟨exLayer 1 RenderPass.None, exParams RenderPass.None, none⟩)
    [⟨exId, some exFresh⟩, ⟨exId, some exNoData⟩]
    (fun t ht b hb => by
      simp only [List.mem_cons, List.mem_singleton, List.not_mem_nil, or_false] at ht
      rcases ht with rfl | rfl <;> cases hb <;> exact ⟨rfl, rfl⟩)

/-- C3, as stated, fails: a `Translucent` call on one tile whose bucket has data and is not
prepared does not return the tile without a draw; it ends at `assert(bucket.texture)`. -/
theorem translucent_skips_unprepared_counterexample :
    exFresh.hasData = true ∧ exFresh.isPrepared = false ∧
    render exEnv (exLayer 1 (RenderPass.union RenderPass.Translucent RenderPass.Pass3D))
        (exParams RenderPass.Translucent) none [⟨exId, some exFresh⟩]
      = .error (.assertTexture exId) :=
  ⟨rfl, rfl, rfl⟩

/-- C3, amended: for a tile whose bucket has data but is not prepared and holds no shaded
texture, the body of the loop in a `Translucent` call does not skip the tile: it reaches
`assert(bucket.texture)`, which fails, and every `Translucent` call over a tile set
containing the tile ends in a failed assertion. A `Translucent` call that completes leaves
every tile as it was, and once a `Pass3D` call has prepared the bucket, the `Translucent`
call over the tile completes with one shade draw. -/
theorem translucent_unprepared_asserts (env : Env α M) (layer : RenderHillshadeLayer α)
    (parameters : PaintParameters α M) (src : Option RenderRasterDEMSource)
    (pre post : List RenderTile) (tile : RenderTile) (b : HillshadeBucket)
    (hp : parameters.pass = RenderPass.Translucent)
    (hb : tile.bucket = some b) (hd : b.hasData = true) (hprep : b.isPrepared = false)
    (htex : b.texture = none) :
    renderTile env layer parameters (maxzoomOf src) tile = .error (.assertTexture tile.id) ∧
    (∃ e, render env layer parameters src (pre ++ tile :: post) = .error e) ∧
    (∀ tiles s d, render env layer parameters src tiles = .ok (s, d) → s = tiles) ∧
    ∃ t' d1 d2,
      render env layer { parameters with pass := RenderPass.Pass3D } src [tile]
        = .ok ([t'], [Draw.prepare d1]) ∧
      render env layer parameters src [t'] = .ok ([t'], [Draw.shade d2]) := by
  have hbody := renderTile_noTexture env layer parameters (maxzoomOf src) tile b hb hd htex hp
  refine ⟨hbody, ?_, ?_, ?_⟩
  · rw [render_translucent env layer parameters src _ hp]
    exact renderLoop_error env layer parameters _ pre post tile _ hbody
  · intro tiles s d h
    rw [render_translucent env layer parameters src _ hp] at h
    exact renderLoop_translucent_same env layer parameters _ tiles s d hp h
  · obtain ⟨dem, hdem⟩ : ∃ dem, b.dem = some dem := by
      cases hx : b.dem with
      | none => simp [HillshadeBucket.hasData, hx] at hd
      | some dem => exact ⟨dem, rfl⟩
    have h1 : ∃ t' d1,
        renderTile env layer { parameters with pass := RenderPass.Pass3D } (maxzoomOf src) tile
          = .ok (t', [Draw.prepare d1]) ∧
        ∃ b' texture, t'.bucket = some b' ∧ b'.hasData = true ∧ b'.texture = some texture :=
      ⟨_, _, renderTile_prepare env layer { parameters with pass := RenderPass.Pass3D }
        (maxzoomOf src) tile b dem hb hdem hprep rfl, _, _, rfl, hd, rfl⟩
    obtain ⟨t', d1, h1, b', texture, hb', hd', htex'⟩ := h1
    obtain ⟨d2, h2, _⟩ := renderTile_shade_one env layer parameters (maxzoomOf src) t' b'
      texture hb' hd' htex' hp
    refine ⟨t', d1, d2, ?_, ?_⟩
    · rw [render_pass3D env layer _ src _ rfl, renderLoop, h1]
      rfl
    · rw [render_translucent env layer parameters src _ hp, renderLoop, h2]
      rfl

/-- Witness of C3, amended: the fresh tile of the counterexample. -/
theorem translucent_unprepared_asserts_witness :
    renderTile exEnv (exLayer 1 RenderPass.None) (exParams RenderPass.Translucent)
        (maxzoomOf none) ⟨exId, some exFresh⟩ = .error (.assertTexture exId) ∧
    (∃ e, render exEnv (exLayer 1 RenderPass.None) (exParams RenderPass.Translucent) none
        ([⟨exId, some exPrepared⟩] ++ ⟨exId, some exFresh⟩ :: []) = .error e) :=
  ⟨(translucent_unprepared_asserts exEnv (exLayer 1 RenderPass.None)
      (exParams RenderPass.Translucent) none [⟨exId, some exPrepared⟩] []
      ⟨exId, some exFresh⟩ exFresh rfl rfl rfl rfl rfl).1,
   (translucent_unprepared_asserts exEnv (exLayer 1 RenderPass.None)
      (exParams RenderPass.Translucent) none [⟨exId, some exPrepared⟩] []
      ⟨exId, some exFresh⟩ exFresh rfl rfl rfl rfl rfl).2.1⟩

/-- C6, as stated, fails: in the layer state that `evaluate` leaves for exaggeration 0, a
`Pass3D` call of `render` over one unprepared tile with data submits the prepare draw. -/
theorem zero_exaggeration_draws_counterexample :
    (evaluate (exLayer 1 RenderPass.None) (exEvaluated 0)).evaluated.exaggeration = 0 ∧
    render exEnv (evaluate (exLayer 1 RenderPass.None) (exEvaluated 0))
        (exParams RenderPass.Pass3D) none [⟨exId, some exFresh⟩]
      = .ok ([⟨exId, some exPrepared⟩],
             [Draw.prepare
                { target := ⟨(256, 256)⟩
                  u_matrix := 0
                  u_dimension := (258, 258)
                  u_zoom := 4
                  u_maxzoom := 15
                  geometry := ⟨⟨1⟩, ⟨2⟩, [⟨0, 0, 4, 6⟩]⟩
                  u_image := ⟨(258, 258)⟩
                  layerID := "hillshade" }]) :=
  ⟨rfl, rfl⟩

/-- C6, amended: when the evaluated exaggeration is 0, `evaluate` leaves the active pass set
empty, so no pass is active (`hasRenderPass` is false for every pass) and a scheduler that
calls `render` only for active passes submits no draw and leaves the tiles as they are, for
every pass and tile set; `render` itself submits no draw when the pass is neither
`Translucent` nor `Pass3D`. -/
theorem zero_exaggeration_no_active_pass [Zero α] [Preorder α]
    [DecidableRel (fun a b : α => a < b)] (env : Env α M) (layer : RenderHillshadeLayer α)
    (ev : Evaluated α) (parameters : PaintParameters α M)
    (src : Option RenderRasterDEMSource) (tiles : List RenderTile)
    (h0 : ev.exaggeration = 0) :
    (evaluate layer ev).passes = RenderPass.None ∧
    (∀ pass, hasRenderPass (evaluate layer ev) pass = false) ∧
    renderIfActive env (evaluate layer ev) parameters src tiles = .ok (tiles, []) ∧
    (parameters.pass ≠ RenderPass.Translucent → parameters.pass ≠ RenderPass.Pass3D →
      render env (evaluate layer ev) parameters src tiles = .ok (tiles, [])) := by
  have hpass : (evaluate layer ev).passes = RenderPass.None := by
    simp [evaluate, h0]
  have hno : ∀ pass, hasRenderPass (evaluate layer ev) pass = false := by
    intro pass
    simp [hasRenderPass, hpass, RenderPass.inter, RenderPass.None]
  refine ⟨hpass, hno, ?_, ?_⟩
  · simp [renderIfActive, hno]
  · intro h1 h2
    exact render_otherPass env _ parameters src tiles h1 h2

/-- Witness of C6, amended: exaggeration 0, a `Pass3D` call through the scheduler. -/
theorem zero_exaggeration_no_active_pass_witness :
    (evaluate (exLayer 1 RenderPass.Pass3D) (exEvaluated 0)).passes = RenderPass.None ∧
    renderIfActive exEnv (evaluate (exLayer 1 RenderPass.Pass3D) (exEvaluated 0))
      (exParams RenderPass.Pass3D) none [⟨exId, some exFresh⟩]
      = .ok ([⟨exId, some exFresh⟩], []) :=
  ⟨(zero_exaggeration_no_active_pass exEnv (exLayer 1 RenderPass.Pass3D) (exEvaluated 0)
      (exParams RenderPass.Pass3D) none [⟨exId, some exFresh⟩] rfl).1,
   (zero_exaggeration_no_active_pass exEnv (exLayer 1 RenderPass.Pass3D) (exEvaluated 0)
      (exParams RenderPass.Pass3D) none [⟨exId, some exFresh⟩] rfl).2.2.1⟩

/-- C7, as stated, fails: `getLight` returns `float` values. With `DEG2RAD` the `double`
nearest to `pi / 180`, direction 315 and exaggeration 0.5, the azimuth returned for anchor
`Map` is the `float` 11529695 / 2097152 (5.4977869987...), which is not `315 * pi / 180`; and
for anchor `Viewport` with the bearing the `double` nearest to `pi / 2` the azimuth is the
`float` 16470993 / 4194304 (3.9269907474...), which is 1.5707962513..., not `pi / 2`, less
than the `Map` azimuth. -/
theorem getLight_exact_counterexample :
    getLightFloat exEnvFloat (exLayerFloat HillshadeIlluminationAnchorType.Map)
        (exParamsFloat exHalfPi) = (1 / 2, 11529695 / 2097152) ∧
    getLightFloat exEnvFloat (exLayerFloat HillshadeIlluminationAnchorType.Viewport)
        (exParamsFloat exHalfPi) = (1 / 2, 16470993 / 4194304) ∧
    ((11529695 / 2097152 : ℚ) : ℝ) ≠ 315 * Real.pi / 180 ∧
    ((16470993 / 4194304 : ℚ) : ℝ) ≠ ((11529695 / 2097152 : ℚ) : ℝ) - Real.pi / 2 := by
  have h1 := Real.pi_gt_d20
  have h2 := Real.pi_lt_d20
  refine ⟨?_, ?_, ?_, ?_⟩
  · rw [getLightFloat_map _ _ _ rfl]
    exact Prod.ext rfl floatTimesDouble_315
  · rw [getLightFloat_viewport _ _ _ rfl]
    refine Prod.ext rfl ?_
    show floatMinusDouble (floatTimesDouble 315 exDEG2RAD) exHalfPi = 16470993 / 4194304
    rw [floatTimesDouble_315, floatMinusDouble_halfPi]
  · intro h
    push_cast at h
    norm_num at h1 h2
    linarith
  · intro h
    push_cast at h
    norm_num at h1 h2
    linarith

/-- C7, amended: with `DEG2RAD` within `1e-17` of `pi / 180`, a direction `d` between 0 and
360 and a bearing `b` between `-pi` and `pi`, `getLight` returns the exaggeration unchanged
and an azimuth rounded to `float`. For anchor `Map` the azimuth is the `float` nearest the
`double` product `d * DEG2RAD`, whatever the bearing, and it is within `1e-6` of
`d * pi / 180`. For anchor `Viewport` it is the `float` nearest the `double` difference of
that `Map` azimuth and `b`, and it is within `1e-6` of `d * pi / 180 - b`; so for a bearing
within `1e-15` of `pi / 2` the `Viewport` azimuth is within `1e-6` of the `Map` azimuth of
the same direction minus `pi / 2`. Direction 315 with anchor `Map` and exaggeration 0.5 gives
exaggeration 0.5 and an azimuth within 0.00005 of 5.4978. -/
theorem getLight_float_spec {M : Type} (env : Env ℚ M)
    (layer layerMap : RenderHillshadeLayer ℚ) (parameters parametersMap : PaintParameters ℚ M)
    (hdeg : |(env.DEG2RAD : ℝ) - Real.pi / 180| ≤ 1 / 10 ^ 17)
    (hmap : layerMap.evaluated.illuminationAnchor = HillshadeIlluminationAnchorType.Map)
    (hview : layer.evaluated.illuminationAnchor = HillshadeIlluminationAnchorType.Viewport)
    (hsame : layer.evaluated.illuminationDirection = layerMap.evaluated.illuminationDirection)
    (hdir : 0 ≤ layerMap.evaluated.illuminationDirection ∧
      layerMap.evaluated.illuminationDirection ≤ 360)
    (hbear : |(parameters.bearing : ℝ)| ≤ Real.pi) :
    getLightFloat env layerMap parametersMap
      = (layerMap.evaluated.exaggeration,
         toFloat (toDouble (layerMap.evaluated.illuminationDirection * env.DEG2RAD))) ∧
    |((getLightFloat env layerMap parametersMap).2 : ℝ)
        - layerMap.evaluated.illuminationDirection * Real.pi / 180| ≤ 1 / 10 ^ 6 ∧
    getLightFloat env layer parameters
      = (layer.evaluated.exaggeration,
         toFloat (toDouble
           ((getLightFloat env layerMap parametersMap).2 - parameters.bearing))) ∧
    |((getLightFloat env layer parameters).2 : ℝ)
        - (layer.evaluated.illuminationDirection * Real.pi / 180 - parameters.bearing)|
      ≤ 1 / 10 ^ 6 ∧
    (|(parameters.bearing : ℝ) - Real.pi / 2| ≤ 1 / 10 ^ 15 →
      |((getLightFloat env layer parameters).2 : ℝ)
          - (((getLightFloat env layerMap parametersMap).2 : ℝ) - Real.pi / 2)|
        ≤ 1 / 10 ^ 6) ∧
    (layerMap.evaluated.illuminationDirection = 315 →
      layerMap.evaluated.exaggeration = 1 / 2 →
      (getLightFloat env layerMap parametersMap).1 = 1 / 2 ∧
      |((getLightFloat env layerMap parametersMap).2 : ℝ) - 5.4978| < 5 / 10 ^ 5) := by
  have hpi1 := Real.pi_gt_d6
  have hpi2 := Real.pi_lt_d6
  obtain ⟨hd0, hd1⟩ := hdir
  have hd0r : (0 : ℝ) ≤ (layerMap.evaluated.illuminationDirection : ℝ) := by
    exact_mod_cast hd0
  have hd1r : (layerMap.evaluated.illuminationDirection : ℝ) ≤ 360 := by exact_mod_cast hd1
  rw [abs_le] at hdeg hbear
  -- bounds on the constant and the product, in the rationals
  have hD1 : (0 : ℚ) < env.DEG2RAD := by
    have : ((0 : ℚ) : ℝ) < (env.DEG2RAD : ℝ) := by push_cast; linarith
    exact_mod_cast this
  have hD2 : env.DEG2RAD < 176 / 10000 := by
    have : (env.DEG2RAD : ℝ) < ((176 / 10000 : ℚ) : ℝ) := by push_cast; linarith
    exact_mod_cast this
  have hprod : |layerMap.evaluated.illuminationDirection * env.DEG2RAD| < 7 := by
    rw [abs_of_nonneg (mul_nonneg hd0 hD1.le)]
    nlinarith
  have hb1 : |parameters.bearing| < 315 / 100 := by
    have : |(parameters.bearing : ℝ)| < ((315 / 100 : ℚ) : ℝ) := by
      rw [abs_lt]; push_cast; constructor <;> linarith
    exact_mod_cast this
  -- the Map azimuth
  have hM := getLightFloat_map env layerMap parametersMap hmap
  have hMerr := floatTimesDouble_error _ _ hprod
  have hMerr' : |((floatTimesDouble layerMap.evaluated.illuminationDirection
      env.DEG2RAD : ℚ) : ℝ)
      - (layerMap.evaluated.illuminationDirection : ℝ) * (env.DEG2RAD : ℝ)|
      ≤ 1 / 4000000 := by
    have h := (Rat.cast_le (K := ℝ)).mpr hMerr
    push_cast at h
    exact h
  have hconst : |(layerMap.evaluated.illuminationDirection : ℝ) * (env.DEG2RAD : ℝ)
      - layerMap.evaluated.illuminationDirection * Real.pi / 180| ≤ 360 / 10 ^ 17 := by
    rw [abs_le]
    constructor <;> nlinarith
  have hMreal : |((floatTimesDouble layerMap.evaluated.illuminationDirection
      env.DEG2RAD : ℚ) : ℝ)
      - layerMap.evaluated.illuminationDirection * Real.pi / 180| ≤ 3 / 10 ^ 7 := by
    rw [abs_le] at hMerr' hconst ⊢
    constructor <;> norm_num at hconst ⊢ <;> linarith
  -- the Viewport azimuth
  have hV := getLightFloat_viewport env layer parameters hview
  rw [hsame] at hV
  have hMabs : |floatTimesDouble layerMap.evaluated.illuminationDirection env.DEG2RAD| < 8 := by
    rw [abs_lt] at hprod ⊢
    rw [abs_le] at hMerr
    constructor <;> linarith
  have hdiff : |floatTimesDouble layerMap.evaluated.illuminationDirection env.DEG2RAD
      - parameters.bearing| < 15 := by
    rw [abs_lt] at hMabs hb1 ⊢
    constructor <;> linarith
  have hVerr := floatMinusDouble_error _ _ hdiff
  have hVerr' : |((floatMinusDouble
      (floatTimesDouble layerMap.evaluated.illuminationDirection env.DEG2RAD)
      parameters.bearing : ℚ) : ℝ)
      - (((floatTimesDouble layerMap.evaluated.illuminationDirection env.DEG2RAD : ℚ) : ℝ)
        - (parameters.bearing : ℝ))| ≤ 1 / 2000000 := by
    have h := (Rat.cast_le (K := ℝ)).mpr hVerr
    push_cast at h
    exact h
  have hM2 : (getLightFloat env layerMap parametersMap).2
      = floatTimesDouble layerMap.evaluated.illuminationDirection env.DEG2RAD := by
    rw [hM]
  have hV2 : (getLightFloat env layer parameters).2
      = floatMinusDouble
          (floatTimesDouble layerMap.evaluated.illuminationDirection env.DEG2RAD)
          parameters.bearing := by
    rw [hV]
  refine ⟨hM, ?_, ?_, ?_, ?_, ?_⟩
  · rw [hM2]
    exact hMreal.trans (by norm_num)
  · rw [hV, hM2]
    rfl
  · rw [hV2, hsame]
    rw [abs_le] at hVerr' hMreal ⊢
    constructor <;> norm_num at hMreal hVerr' ⊢ <;> linarith
  · intro hhalf
    rw [hV2, hM2]
    rw [abs_le] at hVerr' hhalf ⊢
    constructor <;> norm_num at hhalf hVerr' ⊢ <;> linarith
  · intro h315 he
    refine ⟨by rw [hM]; exact he, ?_⟩
    rw [hM2]
    rw [h315] at hMreal ⊢
    rw [abs_le] at hMreal
    rw [abs_lt]
    push_cast at hMreal
    constructor <;> norm_num at hMreal ⊢ <;> linarith

/-- Witness of C7, amended: direction 315 and exaggeration 0.5 with `DEG2RAD` the `double`
nearest to `pi / 180`, anchored to the map and to the viewport at the `double` nearest to
`pi / 2`. -/
theorem getLight_float_spec_witness :
    |((getLightFloat exEnvFloat (exLayerFloat HillshadeIlluminationAnchorType.Viewport)
          (exParamsFloat exHalfPi)).2 : ℝ)
        - (((getLightFloat exEnvFloat (exLayerFloat HillshadeIlluminationAnchorType.Map)
              (exParamsFloat 0)).2 : ℝ) - Real.pi / 2)| ≤ 1 / 10 ^ 6 ∧
    (getLightFloat exEnvFloat (exLayerFloat HillshadeIlluminationAnchorType.Map)
        (exParamsFloat 0)).1 = 1 / 2 ∧
    |((getLightFloat exEnvFloat (exLayerFloat HillshadeIlluminationAnchorType.Map)
        (exParamsFloat 0)).2 : ℝ) - 5.4978| < 5 / 10 ^ 5 := by
  have h1 := Real.pi_gt_d20
  have h2 := Real.pi_lt_d20
  have hdeg : |((exEnvFloat.DEG2RAD : ℚ) : ℝ) - Real.pi / 180| ≤ 1 / 10 ^ 17 := by
    show |((exDEG2RAD : ℚ) : ℝ) - Real.pi / 180| ≤ 1 / 10 ^ 17
    unfold exDEG2RAD
    rw [abs_le]
    push_cast
    constructor <;> norm_num <;> linarith
  have hhalf : |(((exParamsFloat exHalfPi).bearing : ℚ) : ℝ) - Real.pi / 2| ≤ 1 / 10 ^ 15 := by
    show |((exHalfPi : ℚ) : ℝ) - Real.pi / 2| ≤ 1 / 10 ^ 15
    unfold exHalfPi
    rw [abs_le]
    push_cast
    constructor <;> norm_num <;> linarith
  have hbear : |(((exParamsFloat exHalfPi).bearing : ℚ) : ℝ)| ≤ Real.pi := by
    show |((exHalfPi : ℚ) : ℝ)| ≤ Real.pi
    unfold exHalfPi
    rw [abs_le]
    push_cast
    constructor <;> norm_num <;> linarith
  have h := getLight_float_spec exEnvFloat
    (exLayerFloat HillshadeIlluminationAnchorType.Viewport)
    (exLayerFloat HillshadeIlluminationAnchorType.Map) (exParamsFloat exHalfPi)
    (exParamsFloat 0) hdeg rfl rfl rfl ⟨by norm_num [exLayerFloat], by norm_num [exLayerFloat]⟩
    hbear
  exact ⟨h.2.2.2.2.1 hhalf, h.2.2.2.2.2 rfl rfl⟩

/-- C9: under the standard tile-to-latitude projection, `getLatRange` returns for the tile
`(z, x, y)` the latitude of its top edge and the latitude of the top edge of the tile
`(z, x, y + 1)`; for the zoom-0 tile `(0, 0, 0)` the two values are within 0.001 of 85.0511
and of -85.0511. The casts to `float` are read as the identity on the reals. -/
theorem getLatRange_spec {M : Type} (env : Env ℝ M) (id : UnwrappedTileID)
    (hlat : StandardProjection env.lat) :
    getLatRange env id
      = (Real.arctan (Real.sinh (Real.pi *
            (1 - 2 * (id.canonical.y : ℝ) / 2 ^ id.canonical.z))) * 180 / Real.pi,
         Real.arctan (Real.sinh (Real.pi *
            (1 - 2 * ((id.canonical.y + 1 : Nat) : ℝ) / 2 ^ id.canonical.z))) * 180
            / Real.pi) ∧
    (id.canonical.z = 0 → id.canonical.y = 0 →
      |(getLatRange env id).1 - 85.0511| < 0.001 ∧
      |(getLatRange env id).2 - (-85.0511)| < 0.001) := by
  have hrange : getLatRange env id
      = (Real.arctan (Real.sinh (Real.pi *
            (1 - 2 * (id.canonical.y : ℝ) / 2 ^ id.canonical.z))) * 180 / Real.pi,
         Real.arctan (Real.sinh (Real.pi *
            (1 - 2 * ((id.canonical.y + 1 : Nat) : ℝ) / 2 ^ id.canonical.z))) * 180
            / Real.pi) := by
    simp only [getLatRange, LatLng.latitude, UnwrappedTileID.ofZXY]
    rw [hlat, hlat]
  refine ⟨hrange, ?_⟩
  intro hz hy
  rw [hrange, hz, hy]
  have h0 := lat_zero_bounds
  have e1 : Real.pi * (1 - 2 * ((0 : Nat) : ℝ) / 2 ^ 0) = Real.pi := by norm_num
  have e2 : Real.pi * (1 - 2 * ((0 + 1 : Nat) : ℝ) / 2 ^ 0) = -Real.pi := by norm_num
  dsimp only
  rw [e1, e2, Real.sinh_neg, Real.arctan_neg]
  refine ⟨h0, ?_⟩
  have e3 : -Real.arctan (Real.sinh Real.pi) * 180 / Real.pi - (-85.0511)
      = -(Real.arctan (Real.sinh Real.pi) * 180 / Real.pi - 85.0511) := by ring
  rw [e3, abs_neg]
  exact h0

/-- Witness of C9: the zoom-0 tile under the standard projection. -/
theorem getLatRange_spec_witness :
    |(getLatRange (⟨Real.pi / 180, fun z y => Real.arctan (Real.sinh (Real.pi *
          (1 - 2 * (y : ℝ) / 2 ^ z))) * 180 / Real.pi, ()⟩ : Env ℝ Unit)
        ⟨0, ⟨0, 0, 0⟩⟩).1 - 85.0511| < 0.001 ∧
    |(getLatRange (⟨Real.pi / 180, fun z y => Real.arctan (Real.sinh (Real.pi *
          (1 - 2 * (y : ℝ) / 2 ^ z))) * 180 / Real.pi, ()⟩ : Env ℝ Unit)
        ⟨0, ⟨0, 0, 0⟩⟩).2 - (-85.0511)| < 0.001 :=
  (getLatRange_spec (⟨Real.pi / 180, fun z y => Real.arctan (Real.sinh (Real.pi *
      (1 - 2 * (y : ℝ) / 2 ^ z))) * 180 / Real.pi, ()⟩ : Env ℝ Unit) ⟨0, ⟨0, 0, 0⟩⟩
    (fun _ _ => rfl)).2 rfl rfl

end Claims

end mbgl
